import Mathlib

/-!
Verification of the `lambda-generate-content` handler.

This file is a shallow embedding of the two source files of the repository,
`src/handler.py` and `src/utils.py`, together with proofs about the
embedded definitions.  JSON values are modelled by an inductive type,
Python exceptions by `Except String`, and the two external clients
(the text-generation API and the object store), the HTML template renderer
and `json.loads` by injected oracles, following the dependency-injection
design note of the specification.  Outbound calls are recorded in an
explicit trace so that "no call was made" is expressible.
-/

set_option maxRecDepth 20000

/-! ## The embedding: JSON values, Python semantics helpers, and the
translated source functions with their injected collaborators -/

/-- JSON values as delivered by the gateway event and produced by
`json.loads`.  Numbers are modelled as integers; none of the analysed
behaviour involves fractional numbers. -/
inductive Json where
  | null
  | bool (b : Bool)
  | num (n : Int)
  | str (s : String)
  | arr (elems : List Json)
  | obj (fields : List (String × Json))
deriving Inhabited

/-- Python truthiness `bool(x)` of a JSON value. -/
def truthy : Json → Bool
  | .null => false
  | .bool b => b
  | .num n => n != 0
  | .str s => !s.isEmpty
  | .arr xs => !xs.isEmpty
  | .obj kvs => !kvs.isEmpty

/-- `d.get(k, default)` on the field list of a JSON object. -/
def jgetD (kvs : List (String × Json)) (k : String) (d : Json) : Json :=
  match kvs.find? (fun kv => kv.1 == k) with
  | some kv => kv.2
  | none => d

/-- `d[k]` / `k in d` support: first binding of a key. -/
def jlookup (kvs : List (String × Json)) (k : String) : Option Json :=
  (kvs.find? (fun kv => kv.1 == k)).map (fun kv => kv.2)

/-- Python `x == s` where `s` is a string: values of other types never
compare equal to a string. -/
def jeqStr : Json → String → Bool
  | .str a, b => a == b
  | _, _ => false

/-- The character class `[a-z0-9]` of the slug regex. -/
def slugChar (c : Char) : Bool :=
  ('a' ≤ c && c ≤ 'z') || ('0' ≤ c && c ≤ '9')

/-- `re.sub(r'[^a-z0-9]+', '-', s)`: replace each maximal run of
characters outside the class by a single hyphen.  The boolean flag
records whether the previous character belonged to such a run. -/
def collapseSub : Bool → List Char → List Char
  | _, [] => []
  | inRun, c :: rest =>
    if slugChar c then c :: collapseSub false rest
    else if inRun then collapseSub true rest
    else '-' :: collapseSub true rest

/-- `s.strip('-')`: drop hyphens from both ends. -/
def stripHyphens (l : List Char) : List Char :=
  ((l.dropWhile (fun c => c == '-')).reverse.dropWhile (fun c => c == '-')).reverse

/-- `slugify(text)` from `src/utils.py`: lowercase, collapse runs of
characters outside `[a-z0-9]` to single hyphens, strip hyphens at both
ends, then truncate to the first 100 characters.  Lowercasing is modelled
per character, which agrees with Python on ASCII input; characters whose
lowercase form is not in `[a-z0-9]` are collapsed either way. -/
def slugify (text : String) : String :=
  String.mk ((stripHyphens (collapseSub false (text.data.map Char.toLower))).take 100)

/-- `generate_filename(topic, category)` from `src/utils.py`. -/
def generate_filename (topic category : String) : String :=
  slugify topic ++ "-" ++ category ++ ".html"

/-- A 101-character input whose slug is truncated in the middle of a
hyphen-separated word, leaving a trailing hyphen. -/
def s99 : String := String.mk (List.replicate 99 'a' ++ [' ', 'b'])

def hexDigit (n : Nat) : Char :=
  if n < 10 then Char.ofNat (48 + n) else Char.ofNat (87 + n)

def hex2 (n : Nat) : String :=
  String.mk [hexDigit (n / 16 % 16), hexDigit (n % 16)]

def hex4 (n : Nat) : String :=
  String.mk [hexDigit (n / 4096 % 16), hexDigit (n / 256 % 16), hexDigit (n / 16 % 16),
    hexDigit (n % 16)]

/-- One character of Python `repr` of a string, with quote character `q`.
Non-printable ASCII is escaped; CPython's escaping of non-printable
non-ASCII characters is approximated by keeping them verbatim, which
agrees with CPython on printable text. -/
def pyReprEsc (q : Char) (c : Char) : String :=
  if c = '\\' then "\\\\"
  else if c = q then String.mk ['\\', q]
  else if c = '\n' then "\\n"
  else if c = '\r' then "\\r"
  else if c = '\t' then "\\t"
  else if c.toNat < 32 || c.toNat == 127 then "\\x" ++ hex2 c.toNat
  else String.mk [c]

/-- Python `repr` of a string: single-quoted, or double-quoted when the
text contains a single quote but no double quote. -/
def pyReprStr (s : String) : String :=
  let q := if s.data.contains (Char.ofNat 39) && !s.data.contains '"' then '"' else Char.ofNat 39
  String.mk [q] ++ String.join (s.data.map (pyReprEsc q)) ++ String.mk [q]

mutual
/-- Python `repr` of a JSON value. -/
def pyRepr : Json → String
  | .null => "None"
  | .bool b => if b then "True" else "False"
  | .num n => toString n
  | .str s => pyReprStr s
  | .arr xs => "[" ++ pyReprItems xs ++ "]"
  | .obj kvs => "\x7b" ++ pyReprFields kvs ++ "\x7d"

def pyReprItems : List Json → String
  | [] => ""
  | [j] => pyRepr j
  | j :: rest => pyRepr j ++ ", " ++ pyReprItems rest

def pyReprFields : List (String × Json) → String
  | [] => ""
  | [(k, v)] => pyReprStr k ++ ": " ++ pyRepr v
  | (k, v) :: rest => pyReprStr k ++ ": " ++ pyRepr v ++ ", " ++ pyReprFields rest
end

/-- Python `str()` of a JSON value, as interpolated by f-strings:
strings are taken verbatim, everything else via `repr`. -/
def pyStr : Json → String
  | .str s => s
  | j => pyRepr j

/-- One character of `json.dumps` string escaping (`ensure_ascii=True`). -/
def jsonEsc (c : Char) : String :=
  if c = '"' then "\\\""
  else if c = '\\' then "\\\\"
  else if c = '\n' then "\\n"
  else if c = '\t' then "\\t"
  else if c = '\r' then "\\r"
  else if c.toNat == 8 then "\\b"
  else if c.toNat == 12 then "\\f"
  else if c.toNat < 32 then "\\u" ++ hex4 c.toNat
  else if c.toNat < 127 then String.mk [c]
  else if c.toNat < 65536 then "\\u" ++ hex4 c.toNat
  else
    "\\u" ++ hex4 (55296 + (c.toNat - 65536) / 1024) ++
      "\\u" ++ hex4 (56320 + (c.toNat - 65536) % 1024)

def jsonDumpStr (s : String) : String :=
  "\"" ++ String.join (s.data.map jsonEsc) ++ "\""

mutual
/-- `json.dumps(v, default=str)` with CPython's default separators. -/
def pyDumps : Json → String
  | .null => "null"
  | .bool b => if b then "true" else "false"
  | .num n => toString n
  | .str s => jsonDumpStr s
  | .arr xs => "[" ++ pyDumpsItems xs ++ "]"
  | .obj kvs => "\x7b" ++ pyDumpsFields kvs ++ "\x7d"

def pyDumpsItems : List Json → String
  | [] => ""
  | [j] => pyDumps j
  | j :: rest => pyDumps j ++ ", " ++ pyDumpsItems rest

def pyDumpsFields : List (String × Json) → String
  | [] => ""
  | [(k, v)] => jsonDumpStr k ++ ": " ++ pyDumps v
  | (k, v) :: rest => jsonDumpStr k ++ ": " ++ pyDumps v ++ ", " ++ pyDumpsFields rest
end

/-- Python iteration `for x in v`: lists yield their elements, strings
their one-character substrings, dicts their keys; other values raise
`TypeError`. -/
def pyIter : Json → Except String (List Json)
  | .arr xs => .ok xs
  | .str s => .ok (s.data.map (fun c => Json.str (String.mk [c])))
  | .obj kvs => .ok (kvs.map (fun kv => Json.str kv.1))
  | _ => .error "TypeError: object is not iterable"

/-- Substring test, as used by Python `needle in haystack` on strings. -/
def strContains (needle hay : List Char) : Bool :=
  (List.range (hay.length + 1)).any (fun i => needle.isPrefixOf (hay.drop i))

/-- Python membership `s in v` for a string `s`: dicts test their keys,
strings test substrings, lists test element equality; other values raise
`TypeError`. -/
def pyContains (needle : String) (v : Json) : Except String Bool :=
  match v with
  | .obj kvs => .ok (kvs.any (fun kv => kv.1 == needle))
  | .str s => .ok (strContains needle.data s.data)
  | .arr xs => .ok (xs.any (fun j => jeqStr j needle))
  | _ => .error "TypeError: argument is not iterable"

/-- Index of a character in the standard base64 alphabet; `none` for
characters outside the alphabet, which non-strict decoding discards. -/
def b64Index (c : Char) : Option Nat :=
  if 'A' ≤ c && c ≤ 'Z' then some (c.toNat - 65)
  else if 'a' ≤ c && c ≤ 'z' then some (c.toNat - 71)
  else if '0' ≤ c && c ≤ '9' then some (c.toNat + 4)
  else if c = '+' then some 62
  else if c = '/' then some 63
  else none

/-- The quantum loop of CPython's non-strict `binascii.a2b_base64`:
`quadPos` counts data characters in the current 4-character quantum,
`leftchar` holds pending bits, `pads` counts the padding characters seen.
Non-alphabet characters are discarded; padding after at least two data
characters of a quantum completes the decode; a final quantum of one data
character, or of two or three without completed padding, is an error. -/
def b64Loop : List Char → Nat → Nat → Nat → List Nat → Except String (List Nat)
  | [], quadPos, _, _, out =>
    if quadPos == 0 then .ok out.reverse
    else if quadPos == 1 then
      .error "Invalid base64-encoded string: number of data characters cannot be 1 more than a multiple of 4"
    else .error "Incorrect padding"
  | c :: rest, quadPos, leftchar, pads, out =>
    if c = '=' then
      if quadPos ≥ 2 && quadPos + (pads + 1) ≥ 4 then .ok out.reverse
      else b64Loop rest quadPos leftchar (pads + 1) out
    else
      match b64Index c with
      | none => b64Loop rest quadPos leftchar pads out
      | some v =>
        match quadPos with
        | 0 => b64Loop rest 1 v 0 out
        | 1 => b64Loop rest 2 ((leftchar * 64 + v) % 16) 0 ((leftchar * 64 + v) / 16 :: out)
        | 2 => b64Loop rest 3 ((leftchar * 64 + v) % 4) 0 ((leftchar * 64 + v) / 4 :: out)
        | _ => b64Loop rest 0 0 0 ((leftchar * 64 + v) :: out)

/-- `base64.b64decode` applied to a `str`: the string is ASCII-encoded
first (non-ASCII raises `ValueError`), then decoded non-strictly. -/
def b64decode (s : String) : Except String (List Nat) :=
  if s.data.any (fun c => c.toNat ≥ 128) then
    .error "string argument should contain only ASCII characters"
  else b64Loop s.data 0 0 0 []

/-- Strict UTF-8 decoding of a byte sequence (`bytes.decode('utf-8')`):
rejects bad start and continuation bytes, overlong encodings, surrogates
and out-of-range code points. -/
def utf8Decode : List Nat → Except String (List Char)
  | [] => .ok []
  | b :: rest =>
    if b < 128 then
      match utf8Decode rest with
      | .ok cs => .ok (Char.ofNat b :: cs)
      | .error e => .error e
    else if b < 194 then .error "invalid start byte"
    else if b < 224 then
      match rest with
      | b2 :: rest2 =>
        if 128 ≤ b2 && b2 < 192 then
          match utf8Decode rest2 with
          | .ok cs => .ok (Char.ofNat ((b - 192) * 64 + (b2 - 128)) :: cs)
          | .error e => .error e
        else .error "invalid continuation byte"
      | [] => .error "unexpected end of data"
    else if b < 240 then
      match rest with
      | b2 :: b3 :: rest3 =>
        if 128 ≤ b2 && b2 < 192 && 128 ≤ b3 && b3 < 192 then
          let v := (b - 224) * 4096 + (b2 - 128) * 64 + (b3 - 128)
          if v < 2048 then .error "overlong encoding"
          else if 55296 ≤ v && v < 57344 then .error "surrogates not allowed"
          else
            match utf8Decode rest3 with
            | .ok cs => .ok (Char.ofNat v :: cs)
            | .error e => .error e
        else .error "invalid continuation byte"
      | _ => .error "unexpected end of data"
    else if b < 245 then
      match rest with
      | b2 :: b3 :: b4 :: rest4 =>
        if 128 ≤ b2 && b2 < 192 && 128 ≤ b3 && b3 < 192 && 128 ≤ b4 && b4 < 192 then
          let v := (b - 240) * 262144 + (b2 - 128) * 4096 + (b3 - 128) * 64 + (b4 - 128)
          if v < 65536 then .error "overlong encoding"
          else if v > 1114111 then .error "code point out of range"
          else
            match utf8Decode rest4 with
            | .ok cs => .ok (Char.ofNat v :: cs)
            | .error e => .error e
        else .error "invalid continuation byte"
      | _ => .error "unexpected end of data"
    else .error "invalid start byte"

/-- The outbound API-Gateway envelope. -/
structure Response where
  statusCode : Int
  headers : List (String × String)
  body : String
deriving DecidableEq

/-- The fixed default headers of `create_response`. -/
def default_headers : List (String × String) :=
  [("Content-Type", "application/json"),
   ("Access-Control-Allow-Origin", "*"),
   ("Access-Control-Allow-Headers",
     "Content-Type,X-Amz-Date,Authorization,X-Api-Key,X-Amz-Security-Token"),
   ("Access-Control-Allow-Methods", "GET,POST,OPTIONS")]

/-- `dict.update`: overwrite existing keys in place, append new ones. -/
def updateHeaders (base extra : List (String × String)) : List (String × String) :=
  extra.foldl
    (fun acc kv =>
      if acc.any (fun p => p.1 == kv.1) then
        acc.map (fun p => if p.1 == kv.1 then (p.1, kv.2) else p)
      else acc ++ [kv])
    base

/-- `create_response(status_code, body, headers)` from `src/utils.py`:
fixed CORS headers updated with the extra headers, body serialized with
`json.dumps(..., default=str)`.  The handler never passes extra headers,
so call sites pass `[]` for the `None` default. -/
def create_response (status_code : Int) (body : Json) (headers : List (String × String)) :
    Response :=
  ⟨status_code, updateHeaders default_headers headers, pyDumps body⟩

/-- `parse_request_body(event)` from `src/utils.py`, parameterized by a
`jsonLoads` oracle standing for `json.loads` (`.error` for a
`JSONDecodeError`).  The result is `.error` when the Python function
raises: this happens only in the base64 branch (invalid base64, a decode
result that is not UTF-8, or a truthy non-string body passed to
`b64decode`). -/
def parse_request_body (jsonLoads : String → Except Unit Json)
    (event : List (String × Json)) : Except String Json :=
  let body := jgetD event "body" (Json.str "\x7b\x7d")
  let decoded : Except String Json :=
    if truthy (jgetD event "isBase64Encoded" (Json.bool false)) && truthy body then
      match body with
      | .str s =>
        match b64decode s with
        | .ok bytes =>
          match utf8Decode bytes with
          | .ok cs => .ok (Json.str (String.mk cs))
          | .error e => .error e
        | .error e => .error e
      | _ => .error "TypeError: argument should be a bytes-like object or ASCII string"
    else .ok body
  match decoded with
  | .error e => .error e
  | .ok b =>
    match b with
    | .str s =>
      match jsonLoads s with
      | .ok j => .ok j
      | .error _ => .ok (Json.obj [])
    | _ => .ok (if truthy b then b else Json.obj [])

/-- `get_http_method(event)` from `src/utils.py`.  `.error` marks the
inputs on which the Python function raises: a `requestContext` value on
which `in` is not defined, subscripting a non-dict `requestContext`, or
`.get` on a non-dict `http` value. -/
def get_http_method (event : List (String × Json)) : Except String Json :=
  match jlookup event "requestContext" with
  | some rc =>
    match pyContains "http" rc with
    | .error e => .error e
    | .ok true =>
      match rc with
      | .obj kvs =>
        match jlookup kvs "http" with
        | some (.obj hkvs) => .ok (jgetD hkvs "method" (Json.str "GET"))
        | some _ => .error "AttributeError: object has no attribute get"
        | none => .error "KeyError: http"
      | _ => .error "TypeError: object is not subscriptable"
    | .ok false => .ok (jgetD event "httpMethod" (Json.str "GET"))
  | none => .ok (jgetD event "httpMethod" (Json.str "GET"))

/-- A category entry of `CATEGORY_CONFIG`.  Modelled from the spec: the
repository's `config.py` is not under `src/`; per the specification the
table maps a category key to a display `name` and a prompt template with
exactly one `\x7btopic\x7d` substitution point, modelled as the text
before and after that point. -/
structure CategoryDef where
  name : String
  promptPre : String
  promptPost : String
deriving DecidableEq

/-- The static category configuration table. -/
abbrev Config := List (String × CategoryDef)

/-- `CATEGORY_CONFIG[c]` lookup. -/
def cfgFind (cfg : Config) (k : String) : Option CategoryDef :=
  (cfg.find? (fun kv => kv.1 == k)).map (fun kv => kv.2)

/-- An object-store write request, as issued by `s3_client.put_object`. -/
structure PutReq where
  bucket : String
  key : String
  bodyHtml : String
  contentType : String
  cacheControl : String
deriving DecidableEq

/-- The injected collaborators (design note 9 of the spec): the
text-generation call (indexed by the number of calls already made, so a
later call may answer differently), the object-store write, the HTML
template renderer of the missing `templates.py` (a pure function per the
spec), the completion timestamp source, and `json.loads`. -/
structure Deps where
  bedrock : Nat → String → Except String String
  s3put : Nat → PutReq → Except String Unit
  render : String → String → String → String → String → String
  now : Nat → String
  jsonLoads : String → Except Unit Json

/-- The observable trace of one invocation: prompts sent to the
text-generation API, object-store write attempts, and timestamp reads. -/
structure Trace where
  prompts : List String
  puts : List PutReq
  ticks : Nat
deriving DecidableEq

def emptyTrace : Trace := ⟨[], [], 0⟩

/-- `generate_with_bedrock(prompt)`: one outbound generation call,
recorded in the trace. -/
def generate_with_bedrock (deps : Deps) (tr : Trace) (prompt : String) :
    Except String String × Trace :=
  (deps.bedrock tr.prompts.length prompt,
    { tr with prompts := tr.prompts ++ [prompt] })

/-- The per-pair generation result of `generate_content`. -/
structure GenResult where
  content : String
  meta_description : String
  category_name : String
deriving DecidableEq

/-- The fixed instruction block appended to the category prompt
(src/handler.py, lines 61-70). -/
def instructionBlock : String :=
  "\n\nFormat the article in clean HTML suitable for a blog post. Include:\n- A compelling <h1> title\n- Use <h2> and <h3> for section headers\n- Use <p> tags for paragraphs\n- Use <ul>/<ol> and <li> for lists where appropriate\n- Use <strong> and <em> for emphasis\n- Do NOT include <html>, <head>, or <body> tags - just the article content\n- Make the content engaging, well-researched, and approximately 800-1200 words"

/-- The meta-description prompt (src/handler.py, lines 76-77); note the
trailing space before the newline, as in the source. -/
def metaPromptOf (topicStr nameLower : String) : String :=
  "Write a compelling meta description (150-160 characters) for a blog article about \"" ++
    topicStr ++ "\" focusing on " ++ nameLower ++ ". \nThe description should be engaging and include the main keyword. Return ONLY the meta description text, nothing else."

/-- Python `s.strip()` whitespace. -/
def pySpace (c : Char) : Bool :=
  c == ' ' || c == '\t' || c == '\n' || c == '\r' || c.toNat == 11 || c.toNat == 12

/-- Python `s.strip()`. -/
def pyStrip (s : String) : String :=
  String.mk (((s.data.dropWhile pySpace).reverse.dropWhile pySpace).reverse)

/-- Python `s[:n]` on strings (slice of the first `n` characters). -/
def pySlice (s : String) (n : Nat) : String :=
  String.mk (s.data.take n)

/-- `generate_content(topic, category)` from `src/handler.py`, lines
51-85.  The category membership test mirrors Python hashability: list and
dict arguments to `in` on a dict raise `TypeError`; other non-string
values are hashable but never equal a string key, so they take the
`Unknown category` branch. -/
def generate_content (cfg : Config) (deps : Deps) (tr : Trace) (topic category : Json) :
    Except String GenResult × Trace :=
  match category with
  | .arr _ => (.error "TypeError: unhashable type: list", tr)
  | .obj _ => (.error "TypeError: unhashable type: dict", tr)
  | .str key =>
    match cfgFind cfg key with
    | none => (.error ("Unknown category: " ++ key), tr)
    | some cc =>
      let prompt := cc.promptPre ++ pyStr topic ++ cc.promptPost ++ instructionBlock
      match generate_with_bedrock deps tr prompt with
      | (.error e, tr1) => (.error e, tr1)
      | (.ok content, tr1) =>
        let meta_prompt := metaPromptOf (pyStr topic) (String.mk (cc.name.data.map Char.toLower))
        match generate_with_bedrock deps tr1 meta_prompt with
        | (.error e, tr2) => (.error e, tr2)
        | (.ok md, tr2) =>
          (.ok ⟨content, pySlice (pyStrip md) 160, cc.name⟩, tr2)
  | other => (.error ("Unknown category: " ++ pyStr other), tr)

/-- `save_to_s3(topic, category, content, meta_description, category_name)`
from `src/handler.py`, lines 88-110.  The HTML document is rendered first
by the external renderer; `generate_filename` then calls `slugify`, whose
`.lower()` raises `AttributeError` on a non-string topic; finally the
object-store write is attempted (and recorded in the trace). -/
def save_to_s3 (deps : Deps) (bucket : String) (tr : Trace) (topic category : Json)
    (content meta_description category_name : String) : Except String String × Trace :=
  let html := deps.render (pyStr topic) (pyStr category) category_name content meta_description
  match topic with
  | .str t =>
    let filename := generate_filename t (pyStr category)
    let key := "output/" ++ filename
    let req : PutReq := ⟨bucket, key, html, "text/html", "public, max-age=86400"⟩
    match deps.s3put tr.puts.length req with
    | .ok _ => (.ok key, { tr with puts := tr.puts ++ [req] })
    | .error e => (.error e, { tr with puts := tr.puts ++ [req] })
  | _ => (.error "AttributeError: object has no attribute lower", tr)

/-- A success record appended to `generated` (src/handler.py 174-179). -/
structure PageRecord where
  topic : Json
  category : Json
  output_path : String
  created_at : String

/-- A failure record appended to `failed` (src/handler.py 182-186). -/
structure FailRecord where
  topic : Json
  category : Json
  error : String

/-- The body of the per-pair `try` block (src/handler.py 161-186):
generate, persist, and build the success record, with any exception
turned into a failure record carrying the pair's topic and category. -/
def processPair (cfg : Config) (deps : Deps) (bucket : String) (tr : Trace)
    (topic category : Json) : (PageRecord ⊕ FailRecord) × Trace :=
  match generate_content cfg deps tr topic category with
  | (.error e, tr1) => (.inr ⟨topic, category, e⟩, tr1)
  | (.ok res, tr1) =>
    match save_to_s3 deps bucket tr1 topic category res.content res.meta_description
        res.category_name with
    | (.error e, tr2) => (.inr ⟨topic, category, e⟩, tr2)
    | (.ok key, tr2) =>
      (.inl ⟨topic, category, key, deps.now tr2.ticks⟩, { tr2 with ticks := tr2.ticks + 1 })

/-- The inner `for category in categories` loop, appending to the two
accumulators exactly as the source does. -/
def runCats (cfg : Config) (deps : Deps) (bucket : String) (topic : Json)
    (cats : List Json) (g : List PageRecord) (f : List FailRecord) (tr : Trace) :
    List PageRecord × List FailRecord × Trace :=
  match cats with
  | [] => (g, f, tr)
  | c :: rest =>
    match processPair cfg deps bucket tr topic c with
    | (.inl r, tr1) => runCats cfg deps bucket topic rest (g ++ [r]) f tr1
    | (.inr e, tr1) => runCats cfg deps bucket topic rest g (f ++ [e]) tr1

/-- The outer `for topic in topics` loop. -/
def runTopics (cfg : Config) (deps : Deps) (bucket : String)
    (topics cats : List Json) (g : List PageRecord) (f : List FailRecord) (tr : Trace) :
    List PageRecord × List FailRecord × Trace :=
  match topics with
  | [] => (g, f, tr)
  | t :: rest =>
    match runCats cfg deps bucket t cats g f tr with
    | (g1, f1, tr1) => runTopics cfg deps bucket rest cats g1 f1 tr1

/-- The same double loop, recording the per-pair outcomes as a single
sequence in iteration order (used to state the pair/record bijection). -/
def catOutcomes (cfg : Config) (deps : Deps) (bucket : String) (topic : Json)
    (cats : List Json) (tr : Trace) : List (PageRecord ⊕ FailRecord) × Trace :=
  match cats with
  | [] => ([], tr)
  | c :: rest =>
    match processPair cfg deps bucket tr topic c with
    | (o, tr1) =>
      match catOutcomes cfg deps bucket topic rest tr1 with
      | (os, tr2) => (o :: os, tr2)

def topicOutcomes (cfg : Config) (deps : Deps) (bucket : String)
    (topics cats : List Json) (tr : Trace) : List (PageRecord ⊕ FailRecord) × Trace :=
  match topics with
  | [] => ([], tr)
  | t :: rest =>
    match catOutcomes cfg deps bucket t cats tr with
    | (os, tr1) =>
      match topicOutcomes cfg deps bucket rest cats tr1 with
      | (os2, tr2) => (os ++ os2, tr2)

def leftsOf (l : List (PageRecord ⊕ FailRecord)) : List PageRecord :=
  l.filterMap (fun o => match o with | .inl r => some r | .inr _ => none)

def rightsOf (l : List (PageRecord ⊕ FailRecord)) : List FailRecord :=
  l.filterMap (fun o => match o with | .inl _ => none | .inr e => some e)

/-- The (topic, category) pair carried by an outcome record. -/
def outcomePair : PageRecord ⊕ FailRecord → Json × Json
  | .inl r => (r.topic, r.category)
  | .inr e => (e.topic, e.category)

/-- JSON form of a success record. -/
def pageRecordJson (r : PageRecord) : Json :=
  .obj [("topic", r.topic), ("category", r.category),
    ("output_path", .str r.output_path), ("created_at", .str r.created_at)]

/-- JSON form of a failure record. -/
def failRecordJson (e : FailRecord) : Json :=
  .obj [("topic", e.topic), ("category", e.category), ("error", .str e.error)]

/-- The 200-response payload built at src/handler.py lines 188-194. -/
def batchPayload (generated : List PageRecord) (failed : List FailRecord) : Json :=
  .obj [
    ("success", .bool (failed.length == 0)),
    ("generated", .arr (generated.map pageRecordJson)),
    ("failed", .arr (failed.map failRecordJson)),
    ("total_generated", .num generated.length),
    ("message", .str (
      if !failed.isEmpty then
        "Generated " ++ toString generated.length ++ " pages. " ++
          toString failed.length ++ " failed."
      else "Successfully generated " ++ toString generated.length ++ " pages."))]

/-- The membership filter `[c for c in categories if c not in
CATEGORY_CONFIG]` over the already-iterated element list; `in` on the
dict raises `TypeError` for unhashable elements. -/
def invalidCatsFilter (cfg : Config) : List Json → Except String (List Json)
  | [] => .ok []
  | c :: rest =>
    let mem : Except String Bool :=
      match c with
      | .arr _ => .error "TypeError: unhashable type: list"
      | .obj _ => .error "TypeError: unhashable type: dict"
      | .str s => .ok ((cfgFind cfg s).isSome)
      | _ => .ok false
    match mem with
    | .error e => .error e
    | .ok b =>
      match invalidCatsFilter cfg rest with
      | .error e => .error e
      | .ok l => .ok (if b then l else c :: l)

/-- `handler(event, context)` from `src/handler.py`, lines 113-194.
`bucket` is the `OUTPUT_BUCKET` environment value (empty string when the
variable is unset).  The first component is the returned envelope, or
`.error` when the Python handler raises (an uncaught exception outside
the per-pair `try`); the second is the trace of outbound calls. -/
def handler (cfg : Config) (deps : Deps) (bucket : String)
    (event : List (String × Json)) : Except String Response × Trace :=
  match get_http_method event with
  | .error e => (.error e, emptyTrace)
  | .ok method =>
    if jeqStr method "OPTIONS" then
      (.ok (create_response 200 (.obj []) []), emptyTrace)
    else if !jeqStr method "POST" then
      (.ok (create_response 405 (.obj [("error", .str "Method not allowed")]) []), emptyTrace)
    else
      match parse_request_body deps.jsonLoads event with
      | .error e => (.error e, emptyTrace)
      | .ok (.obj bodyKvs) =>
        let topics := jgetD bodyKvs "topics" (.arr [])
        let categories := jgetD bodyKvs "categories" (.arr [])
        if !truthy topics then
          (.ok (create_response 400 (.obj [("error", .str "At least one topic is required")]) []),
            emptyTrace)
        else if !truthy categories then
          (.ok (create_response 400
            (.obj [("error", .str "At least one category is required")]) []), emptyTrace)
        else
          match pyIter categories with
          | .error e => (.error e, emptyTrace)
          | .ok catsElems =>
            match invalidCatsFilter cfg catsElems with
            | .error e => (.error e, emptyTrace)
            | .ok invalid =>
              if !invalid.isEmpty then
                (.ok (create_response 400
                  (.obj [("error", .str ("Invalid categories: " ++ pyStr (.arr invalid)))]) []),
                  emptyTrace)
              else if bucket == "" then
                (.ok (create_response 500
                  (.obj [("error", .str "OUTPUT_BUCKET_NAME not configured")]) []), emptyTrace)
              else
                match pyIter topics with
                | .error e => (.error e, emptyTrace)
                | .ok topicsElems =>
                  match runTopics cfg deps bucket topicsElems catsElems [] [] emptyTrace with
                  | (g, f, tr) => (.ok (create_response 200 (batchPayload g f) []), tr)
      | .ok _ => (.error "AttributeError: object has no attribute get", emptyTrace)

def cfg0 : Config :=
  [("facts", ⟨"Fun Facts", "Write an article about ", "."⟩),
   ("history", ⟨"History", "Tell the history of ", "."⟩)]

def renderStub : String → String → String → String → String → String :=
  fun _ _ _ _ _ => "<article/>"

/-- Stub collaborators where every outbound call succeeds. -/
def depsOk : Deps :=
  ⟨fun _ _ => .ok "generated text", fun _ _ => .ok (), renderStub,
    fun n => "ts" ++ toString n, fun _ => .error ()⟩

/-- Stub collaborators where every generation call fails. -/
def depsFail : Deps :=
  ⟨fun _ _ => .error "Bedrock down", fun _ _ => .ok (), renderStub,
    fun n => "ts" ++ toString n, fun _ => .error ()⟩

/-- A well-formed v1 POST event with the given topics and categories. -/
def evPost (ts cs : List String) : List (String × Json) :=
  [("httpMethod", .str "POST"),
   ("body", .obj [("topics", .arr (ts.map .str)), ("categories", .arr (cs.map .str))])]

/-- Stub collaborators where the first pair's two generation calls
succeed and every later call fails. -/
def depsMixed : Deps :=
  ⟨fun n _ => if n < 2 then .ok "generated text" else .error "boom",
    fun _ _ => .ok (), renderStub, fun n => "ts" ++ toString n, fun _ => .error ()⟩

/-- Field access on a JSON object. -/
def jfield : Json → String → Option Json
  | .obj kvs, k => jlookup kvs k
  | _, _ => none

/-- The deterministic part of a success record. -/
def recProj (r : PageRecord) : Json × Json × String :=
  (r.topic, r.category, r.output_path)

/-- Stub collaborators whose meta-description call returns 500 spaces. -/
def deps500sp : Deps :=
  ⟨fun n _ => if n == 0 then .ok "body text"
      else .ok (String.mk (List.replicate 500 ' ')),
    fun _ _ => .ok (), renderStub, fun n => "ts" ++ toString n, fun _ => .error ()⟩

/-- Stub collaborators whose meta-description call returns 500 `x`s. -/
def deps500x : Deps :=
  ⟨fun n _ => if n == 0 then .ok "body text"
      else .ok (String.mk (List.replicate 500 'x')),
    fun _ _ => .ok (), renderStub, fun n => "ts" ++ toString n, fun _ => .error ()⟩

/-- The event of the C9 counterexample: a v2 routing context whose
`http` object has no `method` field, alongside a v1 `httpMethod`. -/
def evC9 : List (String × Json) :=
  [("requestContext", .obj [("http", .obj [])]), ("httpMethod", .str "POST")]

/-- A `json.loads` stub that accepts exactly the text decoded in the C3
witness. -/
def jlObj1 : String → Except Unit Json :=
  fun s => if s == "\x7b\"a\": 1\x7d" then .ok (.obj [("a", .num 1)]) else .error ()

/-- A `json.loads` stub that accepts exactly the default empty-object
text. -/
def jlEmptyObj : String → Except Unit Json :=
  fun s => if s == "\x7b\x7d" then .ok (.obj []) else .error ()

/-! ## Lemmas and claim theorems -/

theorem collapseSub_chars (flag : Bool) (l : List Char) :
    ∀ c ∈ collapseSub flag l, slugChar c = true ∨ c = '-' := by
  induction l generalizing flag with
  | nil => intro c hc; simp [collapseSub] at hc
  | cons a rest ih =>
    intro c hc
    by_cases ha : slugChar a
    · simp only [collapseSub, ha, if_true, List.mem_cons] at hc
      rcases hc with h | h
      · exact Or.inl (h ▸ ha)
      · exact ih false c h
    · simp only [collapseSub, ha, if_false, Bool.false_eq_true] at hc
      cases flag with
      | true => simpa using ih true c (by simpa using hc)
      | false =>
        simp only [if_false, List.mem_cons, Bool.false_eq_true, ite_false] at hc
        rcases hc with h | h
        · exact Or.inr h
        · exact ih true c h

theorem stripHyphens_subset (l : List Char) : ∀ c ∈ stripHyphens l, c ∈ l := by
  intro c hc
  unfold stripHyphens at hc
  have h1 : c ∈ (l.dropWhile (fun c => c == '-')).reverse.dropWhile (fun c => c == '-') := by
    simpa using hc
  have h2 := (List.dropWhile_sublist (l := (l.dropWhile (fun c => c == '-')).reverse)
      (p := fun c => c == '-')).subset h1
  have h3 : c ∈ l.dropWhile (fun c => c == '-') := by simpa using h2
  exact (List.dropWhile_sublist (l := l) (p := fun c => c == '-')).subset h3

theorem dropWhile_head_not (p : Char → Bool) (l : List Char) :
    ∀ c, (l.dropWhile p).head? = some c → p c = false := by
  induction l with
  | nil => intro c hc; simp [List.dropWhile] at hc
  | cons a rest ih =>
    intro c hc
    by_cases ha : p a
    · exact ih c (by simpa [List.dropWhile, ha] using hc)
    · simp only [List.dropWhile, ha] at hc
      simp only [List.head?] at hc
      cases hc
      simpa using ha

theorem rev_split (p : Char → Bool) (x : List Char) :
    x = (x.reverse.dropWhile p).reverse ++ (x.reverse.takeWhile p).reverse := by
  conv_lhs => rw [← List.reverse_reverse x]
  conv_lhs => rw [← List.takeWhile_append_dropWhile (p := p) (l := x.reverse)]
  rw [List.reverse_append]

/-- `stripHyphens l` is a prefix of `l.dropWhile (· == '-')`. -/
theorem stripHyphens_eq_append (l : List Char) :
    ∃ t, l.dropWhile (fun c => c == '-') = stripHyphens l ++ t :=
  ⟨((l.dropWhile (fun c => c == '-')).reverse.takeWhile (fun c => c == '-')).reverse,
    rev_split (fun c => c == '-') (l.dropWhile (fun c => c == '-'))⟩

theorem stripHyphens_head_not (l : List Char) :
    ∀ c, (stripHyphens l).head? = some c → (c == '-') = false := by
  intro c hc
  obtain ⟨t, ht⟩ := stripHyphens_eq_append l
  have hne : stripHyphens l ≠ [] := by
    intro h; rw [h] at hc; simp at hc
  have : (l.dropWhile (fun c => c == '-')).head? = some c := by
    rw [ht]
    cases h : stripHyphens l with
    | nil => exact absurd h hne
    | cons a rest => rw [h] at hc; simp at hc; simp [h, hc]
  exact dropWhile_head_not _ l c this

theorem stripHyphens_getLast_not (l : List Char) :
    ∀ c, (stripHyphens l).getLast? = some c → (c == '-') = false := by
  intro c hc
  unfold stripHyphens at hc
  rw [List.getLast?_reverse] at hc
  exact dropWhile_head_not _ _ c hc

theorem take_head? (n : Nat) (l : List Char) (c : Char)
    (h : (l.take (n + 1)).head? = some c) : l.head? = some c := by
  cases l with
  | nil => simp at h
  | cons a rest => simpa using h

/-- The 100-character truncation keeps the whole list when it already has
at most 100 characters. -/
theorem take_of_le (l : List Char) (h : l.length ≤ 100) : l.take 100 = l :=
  List.take_of_length_le h

theorem take_head?' (n : Nat) (hn : 0 < n) (l : List Char) (c : Char)
    (h : (l.take n).head? = some c) : l.head? = some c := by
  cases l with
  | nil => simp at h
  | cons a rest =>
    cases n with
    | zero => omega
    | succ m => simpa using h

/-- C2 counterexample: `slugify` output can end in a hyphen.  On the
101-character input of 99 `a`s followed by `" b"`, the stripped slug is
99 `a`s, a hyphen, and `b`; truncation to 100 characters then ends the
result on the hyphen, contradicting the claim that the output never has
a trailing hyphen. -/
theorem C2_counterexample :
    (slugify s99).data.getLast? = some '-' ∧ (slugify s99).length = 100 := by
  constructor <;> decide

/-- C2 (amended): every `slugify` output consists only of characters in
`[a-z0-9-]` (hence is lowercase), has length at most 100, and never starts
with a hyphen; it never ends with a hyphen provided the stripped slug fits
within the 100-character truncation (truncation can otherwise cut in the
middle of the slug and leave a trailing hyphen); and the two concrete
examples of the claim hold.  `slugify` is a plain function of its input,
so determinism is inherent. -/
theorem C2_slugify_shape (s : String) :
    (∀ c ∈ (slugify s).data, slugChar c = true ∨ c = '-') ∧
    (slugify s).length ≤ 100 ∧
    (∀ c, (slugify s).data.head? = some c → c ≠ '-') ∧
    ((stripHyphens (collapseSub false (s.data.map Char.toLower))).length ≤ 100 →
      ∀ c, (slugify s).data.getLast? = some c → c ≠ '-') ∧
    slugify "Hello, World! 2024" = "hello-world-2024" ∧
    slugify "" = "" := by
  refine ⟨?_, ?_, ?_, ?_, by decide, by decide⟩
  · intro c hc
    have h1 : c ∈ stripHyphens (collapseSub false (s.data.map Char.toLower)) := by
      exact List.take_subset _ _ (by simpa [slugify] using hc)
    exact collapseSub_chars false _ c (stripHyphens_subset _ c h1)
  · simp [slugify, String.length]
  · intro c hc
    have h1 : (stripHyphens (collapseSub false (s.data.map Char.toLower))).head? = some c :=
      take_head?' 100 (by omega) _ c (by simpa [slugify] using hc)
    have := stripHyphens_head_not _ c h1
    simpa using this
  · intro hlen c hc
    have h1 : (stripHyphens (collapseSub false (s.data.map Char.toLower))).getLast? = some c := by
      have heq := take_of_le _ hlen
      simpa [slugify, heq] using hc
    have := stripHyphens_getLast_not _ c h1
    simpa using this

/-- Witness for the hypothesis of the amended C2 theorem: on the first
example input the stripped slug fits in 100 characters, so the
no-trailing-hyphen conclusion applies there. -/
theorem C2_slugify_shape_witness :
    (stripHyphens (collapseSub false (("Hello, World! 2024" : String).data.map Char.toLower))).length ≤ 100 ∧
    (∀ c, (slugify "Hello, World! 2024").data.getLast? = some c → c ≠ '-') :=
  ⟨by decide, (C2_slugify_shape "Hello, World! 2024").2.2.2.1 (by decide)⟩

theorem handler_validated (cfg : Config) (deps : Deps) (bucket : String)
    (event : List (String × Json)) (bodyKvs : List (String × Json))
    (tj cj : Json) (topicsL catsL : List Json)
    (hm : get_http_method event = .ok (.str "POST"))
    (hb : parse_request_body deps.jsonLoads event = .ok (.obj bodyKvs))
    (ht : jgetD bodyKvs "topics" (.arr []) = tj)
    (hc : jgetD bodyKvs "categories" (.arr []) = cj)
    (htt : truthy tj = true)
    (htc : truthy cj = true)
    (hic : pyIter cj = .ok catsL)
    (hinv : invalidCatsFilter cfg catsL = .ok [])
    (hbk : (bucket == "") = false)
    (hit : pyIter tj = .ok topicsL) :
    handler cfg deps bucket event =
      (.ok (create_response 200
        (batchPayload (runTopics cfg deps bucket topicsL catsL [] [] emptyTrace).1
          (runTopics cfg deps bucket topicsL catsL [] [] emptyTrace).2.1) []),
        (runTopics cfg deps bucket topicsL catsL [] [] emptyTrace).2.2) := by
  subst ht hc
  rcases hrt : runTopics cfg deps bucket topicsL catsL [] [] emptyTrace with ⟨g, fl, tr⟩
  simp only [handler, hm, hb, htt, htc, hic, hinv, hit, hrt, hbk, jeqStr]
  simp

/-- C1: once validation passes (POST method, parsed object body, truthy
topics and categories, no invalid category, configured bucket), the
handler returns the 200 envelope built from the loop's accumulated
records, for every behaviour of the generation and persistence oracles —
per-pair failures only land in the accumulators and never change the
status code or abort the batch. -/
theorem C1_always_200_after_validation (cfg : Config) (deps : Deps) (bucket : String)
    (event : List (String × Json)) (bodyKvs : List (String × Json))
    (tj cj : Json) (topicsL catsL : List Json)
    (hm : get_http_method event = .ok (.str "POST"))
    (hb : parse_request_body deps.jsonLoads event = .ok (.obj bodyKvs))
    (ht : jgetD bodyKvs "topics" (.arr []) = tj)
    (hc : jgetD bodyKvs "categories" (.arr []) = cj)
    (htt : truthy tj = true)
    (htc : truthy cj = true)
    (hic : pyIter cj = .ok catsL)
    (hinv : invalidCatsFilter cfg catsL = .ok [])
    (hbk : (bucket == "") = false)
    (hit : pyIter tj = .ok topicsL) :
    handler cfg deps bucket event =
      (.ok (create_response 200
        (batchPayload (runTopics cfg deps bucket topicsL catsL [] [] emptyTrace).1
          (runTopics cfg deps bucket topicsL catsL [] [] emptyTrace).2.1) []),
        (runTopics cfg deps bucket topicsL catsL [] [] emptyTrace).2.2) ∧
    (create_response 200
        (batchPayload (runTopics cfg deps bucket topicsL catsL [] [] emptyTrace).1
          (runTopics cfg deps bucket topicsL catsL [] [] emptyTrace).2.1) []).statusCode = 200 :=
  ⟨handler_validated cfg deps bucket event bodyKvs tj cj topicsL catsL
      hm hb ht hc htt htc hic hinv hbk hit, rfl⟩

/-- Witness for C1 at a concrete validated request whose generation
oracle always fails: the response is still the 200 envelope. -/
theorem C1_always_200_after_validation_witness :
    handler cfg0 depsFail "bkt" (evPost ["A"] ["facts"]) =
      (.ok (create_response 200
        (batchPayload
          (runTopics cfg0 depsFail "bkt" [.str "A"] [.str "facts"] [] [] emptyTrace).1
          (runTopics cfg0 depsFail "bkt" [.str "A"] [.str "facts"] [] [] emptyTrace).2.1) []),
        (runTopics cfg0 depsFail "bkt" [.str "A"] [.str "facts"] [] [] emptyTrace).2.2) ∧
    (create_response 200
        (batchPayload
          (runTopics cfg0 depsFail "bkt" [.str "A"] [.str "facts"] [] [] emptyTrace).1
          (runTopics cfg0 depsFail "bkt" [.str "A"] [.str "facts"] [] [] emptyTrace).2.1) []).statusCode
      = 200 :=
  C1_always_200_after_validation cfg0 depsFail "bkt" (evPost ["A"] ["facts"])
    [("topics", .arr [.str "A"]), ("categories", .arr [.str "facts"])]
    (.arr [.str "A"]) (.arr [.str "facts"]) [.str "A"] [.str "facts"]
    rfl rfl rfl rfl rfl rfl rfl rfl rfl rfl

theorem invalidCatsFilter_strs (cfg : Config) (cs : List String) :
    invalidCatsFilter cfg (cs.map .str) =
      .ok ((cs.filter (fun c => (cfgFind cfg c).isNone)).map .str) := by
  induction cs with
  | nil => rfl
  | cons c rest ih =>
    simp only [List.map_cons, invalidCatsFilter, ih, List.filter_cons]
    cases h : cfgFind cfg c with
    | none => simp [h]
    | some cc => simp [h]

/-- C4: the validation mapping of the handler: OPTIONS short-circuits to
200 with an empty object body; any other non-POST method yields 405;
a POST with empty topics yields the topics 400; with topics present but
empty categories the categories 400; with any unknown category key a 400
listing exactly the invalid keys in order; and with everything valid but
an unconfigured output bucket a 500. -/
theorem C4_validation_status_codes (cfg : Config) (deps : Deps) (bucket : String)
    (event : List (String × Json)) :
    (get_http_method event = .ok (.str "OPTIONS") →
      handler cfg deps bucket event = (.ok (create_response 200 (.obj []) []), emptyTrace)) ∧
    (∀ m, get_http_method event = .ok m → jeqStr m "OPTIONS" = false →
      jeqStr m "POST" = false →
      handler cfg deps bucket event =
        (.ok (create_response 405 (.obj [("error", .str "Method not allowed")]) []),
          emptyTrace)) ∧
    (∀ (bodyKvs : List (String × Json)), get_http_method event = .ok (.str "POST") →
      parse_request_body deps.jsonLoads event = .ok (.obj bodyKvs) →
      jgetD bodyKvs "topics" (.arr []) = .arr [] →
      handler cfg deps bucket event =
        (.ok (create_response 400
          (.obj [("error", .str "At least one topic is required")]) []), emptyTrace)) ∧
    (∀ (bodyKvs : List (String × Json)) (tj : Json), get_http_method event = .ok (.str "POST") →
      parse_request_body deps.jsonLoads event = .ok (.obj bodyKvs) →
      jgetD bodyKvs "topics" (.arr []) = tj → truthy tj = true →
      jgetD bodyKvs "categories" (.arr []) = .arr [] →
      handler cfg deps bucket event =
        (.ok (create_response 400
          (.obj [("error", .str "At least one category is required")]) []), emptyTrace)) ∧
    (∀ (bodyKvs : List (String × Json)) (tj : Json) (cs : List String),
      get_http_method event = .ok (.str "POST") →
      parse_request_body deps.jsonLoads event = .ok (.obj bodyKvs) →
      jgetD bodyKvs "topics" (.arr []) = tj → truthy tj = true →
      jgetD bodyKvs "categories" (.arr []) = .arr (cs.map .str) →
      cs.filter (fun c => (cfgFind cfg c).isNone) ≠ [] →
      handler cfg deps bucket event =
        (.ok (create_response 400
          (.obj [("error", .str ("Invalid categories: " ++
            pyStr (.arr ((cs.filter (fun c => (cfgFind cfg c).isNone)).map .str))))]) []),
          emptyTrace)) ∧
    (∀ (bodyKvs : List (String × Json)) (tj : Json) (cs : List String),
      get_http_method event = .ok (.str "POST") →
      parse_request_body deps.jsonLoads event = .ok (.obj bodyKvs) →
      jgetD bodyKvs "topics" (.arr []) = tj → truthy tj = true →
      jgetD bodyKvs "categories" (.arr []) = .arr (cs.map .str) → cs ≠ [] →
      cs.filter (fun c => (cfgFind cfg c).isNone) = [] → bucket = "" →
      handler cfg deps bucket event =
        (.ok (create_response 500
          (.obj [("error", .str "OUTPUT_BUCKET_NAME not configured")]) []), emptyTrace)) := by
  refine ⟨?_, ?_, ?_, ?_, ?_, ?_⟩
  · intro hm
    simp [handler, hm, jeqStr]
  · intro m hm hno hnp
    simp [handler, hm, hno, hnp]
  · intro bodyKvs hm hb ht
    have h0 : truthy (Json.arr []) = false := rfl
    simp [handler, hm, hb, ht, h0, jeqStr]
  · intro bodyKvs tj hm hb ht htt hcat
    have h0 : truthy (Json.arr []) = false := rfl
    simp [handler, hm, hb, ht, htt, hcat, h0, jeqStr]
  · intro bodyKvs tj cs hm hb ht htt hcat hne
    have htc : truthy (Json.arr (cs.map .str)) = true := by
      cases cs with
      | nil => simp at hne
      | cons a rest => simp [truthy]
    have hfil := invalidCatsFilter_strs cfg cs
    simp [handler, hm, hb, ht, htt, hcat, htc, hfil, hne, jeqStr, pyIter]
  · intro bodyKvs tj cs hm hb ht htt hcat hne hval hbk
    have htc : truthy (Json.arr (cs.map .str)) = true := by
      cases cs with
      | nil => simp at hne
      | cons a rest => simp [truthy]
    have hfil := invalidCatsFilter_strs cfg cs
    simp [handler, hm, hb, ht, htt, hcat, htc, hfil, hval, hbk, jeqStr, pyIter]

/-- Witness for C4: each validation branch exercised on a concrete
request. -/
theorem C4_validation_status_codes_witness :
    handler cfg0 depsOk "bkt" [("httpMethod", .str "OPTIONS")] =
      (.ok (create_response 200 (.obj []) []), emptyTrace) ∧
    handler cfg0 depsOk "bkt" [("httpMethod", .str "GET")] =
      (.ok (create_response 405 (.obj [("error", .str "Method not allowed")]) []),
        emptyTrace) ∧
    handler cfg0 depsOk "bkt" (evPost [] ["facts"]) =
      (.ok (create_response 400 (.obj [("error", .str "At least one topic is required")]) []),
        emptyTrace) ∧
    handler cfg0 depsOk "bkt" (evPost ["A"] []) =
      (.ok (create_response 400
        (.obj [("error", .str "At least one category is required")]) []), emptyTrace) ∧
    handler cfg0 depsOk "bkt" (evPost ["A"] ["facts", "bogus"]) =
      (.ok (create_response 400
        (.obj [("error", .str "Invalid categories: ['bogus']")]) []), emptyTrace) ∧
    handler cfg0 depsOk "" (evPost ["A"] ["facts"]) =
      (.ok (create_response 500
        (.obj [("error", .str "OUTPUT_BUCKET_NAME not configured")]) []), emptyTrace) :=
  ⟨(C4_validation_status_codes cfg0 depsOk "bkt" [("httpMethod", .str "OPTIONS")]).1 rfl,
   (C4_validation_status_codes cfg0 depsOk "bkt" [("httpMethod", .str "GET")]).2.1
     (.str "GET") rfl rfl rfl,
   (C4_validation_status_codes cfg0 depsOk "bkt" (evPost [] ["facts"])).2.2.1
     [("topics", .arr []), ("categories", .arr [.str "facts"])] rfl rfl rfl,
   (C4_validation_status_codes cfg0 depsOk "bkt" (evPost ["A"] [])).2.2.2.1
     [("topics", .arr [.str "A"]), ("categories", .arr [])] (.arr [.str "A"])
     rfl rfl rfl rfl rfl,
   (C4_validation_status_codes cfg0 depsOk "bkt" (evPost ["A"] ["facts", "bogus"])).2.2.2.2.1
     [("topics", .arr [.str "A"]), ("categories", .arr [.str "facts", .str "bogus"])]
     (.arr [.str "A"]) ["facts", "bogus"] rfl rfl rfl rfl rfl (by decide),
   (C4_validation_status_codes cfg0 depsOk "" (evPost ["A"] ["facts"])).2.2.2.2.2
     [("topics", .arr [.str "A"]), ("categories", .arr [.str "facts"])]
     (.arr [.str "A"]) ["facts"] rfl rfl rfl rfl rfl (by decide) rfl rfl⟩

/-- C5: whenever the handler answers with a non-200 status (any
validation rejection: 405, the two 400s, the invalid-category 400, or
the unconfigured-bucket 500), the trace is empty — no generation call
was made and no object-store write was attempted. -/
theorem C5_no_side_effects_on_reject (cfg : Config) (deps : Deps) (bucket : String)
    (event : List (String × Json)) (res : Except String Response) (tr : Trace)
    (h : handler cfg deps bucket event = (res, tr))
    (resp : Response) (hres : res = .ok resp) (hcode : resp.statusCode ≠ 200) :
    tr.prompts = [] ∧ tr.puts = [] := by
  subst hres
  rcases hgm : get_http_method event with e | m
  · have hv : handler cfg deps bucket event = (.error e, emptyTrace) := by
      simp [handler, hgm]
    rw [hv] at h
    simp only [Prod.mk.injEq] at h
    exact Except.noConfusion h.1
  by_cases hopt : jeqStr m "OPTIONS" = true
  · have hv : handler cfg deps bucket event =
        (.ok (create_response 200 (.obj []) []), emptyTrace) := by
      simp [handler, hgm, hopt]
    rw [hv] at h
    simp only [Prod.mk.injEq, Except.ok.injEq] at h
    exact absurd (h.1 ▸ rfl) hcode
  by_cases hpost : jeqStr m "POST" = true
  swap
  · have hv : handler cfg deps bucket event =
        (.ok (create_response 405 (.obj [("error", .str "Method not allowed")]) []),
          emptyTrace) := by
      simp [handler, hgm, hopt, hpost]
    rw [hv] at h
    simp only [Prod.mk.injEq] at h
    rw [← h.2]
    exact ⟨rfl, rfl⟩
  rcases hpb : parse_request_body deps.jsonLoads event with e | b
  · have hv : handler cfg deps bucket event = (.error e, emptyTrace) := by
      simp [handler, hgm, hopt, hpost, hpb]
    rw [hv] at h
    simp only [Prod.mk.injEq] at h
    exact Except.noConfusion h.1
  have hnonobj : ∀ e0, handler cfg deps bucket event = (.error e0, emptyTrace) →
      tr.prompts = [] ∧ tr.puts = [] := by
    intro e0 hv
    rw [hv] at h
    simp only [Prod.mk.injEq] at h
    exact Except.noConfusion h.1
  cases b with
  | null => exact hnonobj "AttributeError: object has no attribute get" (by simp [handler, hgm, hopt, hpost, hpb])
  | bool x => exact hnonobj "AttributeError: object has no attribute get" (by simp [handler, hgm, hopt, hpost, hpb])
  | num x => exact hnonobj "AttributeError: object has no attribute get" (by simp [handler, hgm, hopt, hpost, hpb])
  | str x => exact hnonobj "AttributeError: object has no attribute get" (by simp [handler, hgm, hopt, hpost, hpb])
  | arr x => exact hnonobj "AttributeError: object has no attribute get" (by simp [handler, hgm, hopt, hpost, hpb])
  | obj bodyKvs =>
    by_cases htt : truthy (jgetD bodyKvs "topics" (.arr [])) = true
    swap
    · have hv : handler cfg deps bucket event =
          (.ok (create_response 400
            (.obj [("error", .str "At least one topic is required")]) []), emptyTrace) := by
        simp only [Bool.not_eq_true] at htt
        simp [handler, hgm, hopt, hpost, hpb, htt]
      rw [hv] at h
      simp only [Prod.mk.injEq] at h
      rw [← h.2]
      exact ⟨rfl, rfl⟩
    by_cases htc : truthy (jgetD bodyKvs "categories" (.arr [])) = true
    swap
    · have hv : handler cfg deps bucket event =
          (.ok (create_response 400
            (.obj [("error", .str "At least one category is required")]) []), emptyTrace) := by
        simp only [Bool.not_eq_true] at htc
        simp [handler, hgm, hopt, hpost, hpb, htt, htc]
      rw [hv] at h
      simp only [Prod.mk.injEq] at h
      rw [← h.2]
      exact ⟨rfl, rfl⟩
    rcases hic : pyIter (jgetD bodyKvs "categories" (.arr [])) with e | catsElems
    · have hv : handler cfg deps bucket event = (.error e, emptyTrace) := by
        simp [handler, hgm, hopt, hpost, hpb, htt, htc, hic]
      rw [hv] at h
      simp only [Prod.mk.injEq] at h
      exact Except.noConfusion h.1
    rcases hif : invalidCatsFilter cfg catsElems with e | invalid
    · have hv : handler cfg deps bucket event = (.error e, emptyTrace) := by
        simp [handler, hgm, hopt, hpost, hpb, htt, htc, hic, hif]
      rw [hv] at h
      simp only [Prod.mk.injEq] at h
      exact Except.noConfusion h.1
    by_cases hinv : invalid.isEmpty = true
    swap
    · have hv : handler cfg deps bucket event =
          (.ok (create_response 400
            (.obj [("error", .str ("Invalid categories: " ++ pyStr (.arr invalid)))]) []),
            emptyTrace) := by
        simp only [Bool.not_eq_true] at hinv
        simp [handler, hgm, hopt, hpost, hpb, htt, htc, hic, hif, hinv]
      rw [hv] at h
      simp only [Prod.mk.injEq] at h
      rw [← h.2]
      exact ⟨rfl, rfl⟩
    by_cases hbk : (bucket == "") = true
    · have hv : handler cfg deps bucket event =
          (.ok (create_response 500
            (.obj [("error", .str "OUTPUT_BUCKET_NAME not configured")]) []), emptyTrace) := by
        simp [handler, hgm, hopt, hpost, hpb, htt, htc, hic, hif, hinv, hbk]
      rw [hv] at h
      simp only [Prod.mk.injEq] at h
      rw [← h.2]
      exact ⟨rfl, rfl⟩
    rcases hit : pyIter (jgetD bodyKvs "topics" (.arr [])) with e | topicsElems
    · have hv : handler cfg deps bucket event = (.error e, emptyTrace) := by
        simp [handler, hgm, hopt, hpost, hpb, htt, htc, hic, hif, hinv, hbk, hit]
      rw [hv] at h
      simp only [Prod.mk.injEq] at h
      exact Except.noConfusion h.1
    · rcases hrt : runTopics cfg deps bucket topicsElems catsElems [] [] emptyTrace
        with ⟨g, fl, tr1⟩
      have hv : handler cfg deps bucket event =
          (.ok (create_response 200 (batchPayload g fl) []), tr1) := by
        simp [handler, hgm, hopt, hpost, hpb, htt, htc, hic, hif, hinv, hbk, hit, hrt]
      rw [hv] at h
      simp only [Prod.mk.injEq, Except.ok.injEq] at h
      exact absurd (h.1 ▸ rfl) hcode

/-- Witness for C5 at a concrete rejected request (405): its trace shows
zero generation calls and zero writes. -/
theorem C5_no_side_effects_on_reject_witness :
    (handler cfg0 depsOk "bkt" [("httpMethod", .str "GET")]).2.prompts = [] ∧
    (handler cfg0 depsOk "bkt" [("httpMethod", .str "GET")]).2.puts = [] :=
  C5_no_side_effects_on_reject cfg0 depsOk "bkt" [("httpMethod", .str "GET")]
    (handler cfg0 depsOk "bkt" [("httpMethod", .str "GET")]).1
    (handler cfg0 depsOk "bkt" [("httpMethod", .str "GET")]).2 rfl
    (create_response 405 (.obj [("error", .str "Method not allowed")]) []) rfl (by decide)

theorem processPair_pair (cfg : Config) (deps : Deps) (bucket : String) (tr : Trace)
    (topic c : Json) :
    outcomePair (processPair cfg deps bucket tr topic c).1 = (topic, c) := by
  rcases hg : generate_content cfg deps tr topic c with ⟨res, tr1⟩
  cases res with
  | error e => simp [processPair, hg, outcomePair]
  | ok r =>
    rcases hs : save_to_s3 deps bucket tr1 topic c r.content r.meta_description
        r.category_name with ⟨res2, tr2⟩
    cases res2 with
    | error e => simp [processPair, hg, hs, outcomePair]
    | ok key => simp [processPair, hg, hs, outcomePair]

theorem runCats_outcomes (cfg : Config) (deps : Deps) (bucket : String) (topic : Json) :
    ∀ (cats : List Json) (g : List PageRecord) (f : List FailRecord) (tr : Trace)
      (os : List (PageRecord ⊕ FailRecord)) (trO : Trace),
      catOutcomes cfg deps bucket topic cats tr = (os, trO) →
      runCats cfg deps bucket topic cats g f tr = (g ++ leftsOf os, f ++ rightsOf os, trO) := by
  intro cats
  induction cats with
  | nil =>
    intro g f tr os trO h
    simp only [catOutcomes, Prod.mk.injEq] at h
    obtain ⟨h1, h2⟩ := h
    subst h1; subst h2
    simp [runCats, leftsOf, rightsOf]
  | cons c rest ih =>
    intro g f tr os trO h
    rcases hp : processPair cfg deps bucket tr topic c with ⟨o, tr1⟩
    rcases hco : catOutcomes cfg deps bucket topic rest tr1 with ⟨os1, tr2⟩
    have hcons : catOutcomes cfg deps bucket topic (c :: rest) tr = (o :: os1, tr2) := by
      simp [catOutcomes, hp, hco]
    rw [hcons] at h
    simp only [Prod.mk.injEq] at h
    obtain ⟨h1, h2⟩ := h
    subst h1; subst h2
    cases o with
    | inl r =>
      have hih := ih (g ++ [r]) f tr1 os1 tr2 hco
      simp only [runCats, hp]
      rw [hih]
      simp [leftsOf, rightsOf]
    | inr e =>
      have hih := ih g (f ++ [e]) tr1 os1 tr2 hco
      simp only [runCats, hp]
      rw [hih]
      simp [leftsOf, rightsOf]

theorem runTopics_outcomes (cfg : Config) (deps : Deps) (bucket : String) :
    ∀ (topics cats : List Json) (g : List PageRecord) (f : List FailRecord) (tr : Trace)
      (os : List (PageRecord ⊕ FailRecord)) (trO : Trace),
      topicOutcomes cfg deps bucket topics cats tr = (os, trO) →
      runTopics cfg deps bucket topics cats g f tr =
        (g ++ leftsOf os, f ++ rightsOf os, trO) := by
  intro topics
  induction topics with
  | nil =>
    intro cats g f tr os trO h
    simp only [topicOutcomes, Prod.mk.injEq] at h
    obtain ⟨h1, h2⟩ := h
    subst h1; subst h2
    simp [runTopics, leftsOf, rightsOf]
  | cons t rest ih =>
    intro cats g f tr os trO h
    rcases hcat : catOutcomes cfg deps bucket t cats tr with ⟨os1, tr1⟩
    rcases hto : topicOutcomes cfg deps bucket rest cats tr1 with ⟨os2, tr2⟩
    have hcons : topicOutcomes cfg deps bucket (t :: rest) cats tr = (os1 ++ os2, tr2) := by
      simp [topicOutcomes, hcat, hto]
    rw [hcons] at h
    simp only [Prod.mk.injEq] at h
    obtain ⟨h1, h2⟩ := h
    subst h1; subst h2
    have hrc := runCats_outcomes cfg deps bucket t cats g f tr os1 tr1 hcat
    have hih := ih cats (g ++ leftsOf os1) (f ++ rightsOf os1) tr1 os2 tr2 hto
    simp only [runTopics, hrc]
    rw [hih]
    simp [leftsOf, rightsOf, List.filterMap_append, List.append_assoc]

theorem catOutcomes_pairs (cfg : Config) (deps : Deps) (bucket : String) (topic : Json) :
    ∀ (cats : List Json) (tr : Trace) (os : List (PageRecord ⊕ FailRecord)) (trO : Trace),
      catOutcomes cfg deps bucket topic cats tr = (os, trO) →
      os.map outcomePair = cats.map (fun c => (topic, c)) := by
  intro cats
  induction cats with
  | nil =>
    intro tr os trO h
    simp only [catOutcomes, Prod.mk.injEq] at h
    obtain ⟨h1, h2⟩ := h
    subst h1
    simp
  | cons c rest ih =>
    intro tr os trO h
    rcases hp : processPair cfg deps bucket tr topic c with ⟨o, tr1⟩
    rcases hco : catOutcomes cfg deps bucket topic rest tr1 with ⟨os1, tr2⟩
    have hcons : catOutcomes cfg deps bucket topic (c :: rest) tr = (o :: os1, tr2) := by
      simp [catOutcomes, hp, hco]
    rw [hcons] at h
    simp only [Prod.mk.injEq] at h
    obtain ⟨h1, h2⟩ := h
    subst h1
    have hpp := processPair_pair cfg deps bucket tr topic c
    rw [hp] at hpp
    simp only [List.map_cons]
    rw [hpp, ih tr1 os1 tr2 hco]

theorem topicOutcomes_pairs (cfg : Config) (deps : Deps) (bucket : String) :
    ∀ (topics cats : List Json) (tr : Trace) (os : List (PageRecord ⊕ FailRecord))
      (trO : Trace),
      topicOutcomes cfg deps bucket topics cats tr = (os, trO) →
      os.map outcomePair = topics.flatMap (fun t => cats.map (fun c => (t, c))) := by
  intro topics
  induction topics with
  | nil =>
    intro cats tr os trO h
    simp only [topicOutcomes, Prod.mk.injEq] at h
    obtain ⟨h1, h2⟩ := h
    subst h1
    simp
  | cons t rest ih =>
    intro cats tr os trO h
    rcases hcat : catOutcomes cfg deps bucket t cats tr with ⟨os1, tr1⟩
    rcases hto : topicOutcomes cfg deps bucket rest cats tr1 with ⟨os2, tr2⟩
    have hcons : topicOutcomes cfg deps bucket (t :: rest) cats tr = (os1 ++ os2, tr2) := by
      simp [topicOutcomes, hcat, hto]
    rw [hcons] at h
    simp only [Prod.mk.injEq] at h
    obtain ⟨h1, h2⟩ := h
    subst h1
    simp only [List.map_append, List.flatMap_cons]
    rw [catOutcomes_pairs cfg deps bucket t cats tr os1 tr1 hcat,
      ih cats tr1 os2 tr2 hto]

theorem leftsOf_rightsOf_length (l : List (PageRecord ⊕ FailRecord)) :
    (leftsOf l).length + (rightsOf l).length = l.length := by
  induction l with
  | nil => simp [leftsOf, rightsOf]
  | cons o rest ih =>
    cases o with
    | inl r => simp [leftsOf, rightsOf] at ih ⊢; omega
    | inr e => simp [leftsOf, rightsOf] at ih ⊢; omega

theorem bind_map_length {α β γ : Type} (ts : List α) (cs : List β) (f : α → β → γ) :
    (ts.flatMap (fun t => cs.map (f t))).length = ts.length * cs.length := by
  induction ts with
  | nil => simp
  | cons t rest ih => simp [ih, Nat.succ_mul]; omega

/-- C10: after validation passes, the double loop produces exactly one
outcome per (topic, category) pair — a success record or a failure
record, never both — in iteration order: the outcome sequence has length
len(topics)·len(categories), its per-outcome (topic, category)
projections are exactly the topics×categories product in order, the
response's `generated`/`failed` lists partition it, and their lengths sum
to the product. -/
theorem C10_one_record_per_pair (cfg : Config) (deps : Deps) (bucket : String)
    (event : List (String × Json)) (bodyKvs : List (String × Json))
    (tj cj : Json) (topicsL catsL : List Json)
    (hm : get_http_method event = .ok (.str "POST"))
    (hb : parse_request_body deps.jsonLoads event = .ok (.obj bodyKvs))
    (ht : jgetD bodyKvs "topics" (.arr []) = tj)
    (hc : jgetD bodyKvs "categories" (.arr []) = cj)
    (htt : truthy tj = true)
    (htc : truthy cj = true)
    (hic : pyIter cj = .ok catsL)
    (hinv : invalidCatsFilter cfg catsL = .ok [])
    (hbk : (bucket == "") = false)
    (hit : pyIter tj = .ok topicsL) :
    handler cfg deps bucket event =
      (.ok (create_response 200
        (batchPayload (leftsOf (topicOutcomes cfg deps bucket topicsL catsL emptyTrace).1)
          (rightsOf (topicOutcomes cfg deps bucket topicsL catsL emptyTrace).1)) []),
        (topicOutcomes cfg deps bucket topicsL catsL emptyTrace).2) ∧
    (topicOutcomes cfg deps bucket topicsL catsL emptyTrace).1.map outcomePair =
      topicsL.flatMap (fun t => catsL.map (fun c => (t, c))) ∧
    (leftsOf (topicOutcomes cfg deps bucket topicsL catsL emptyTrace).1).length +
      (rightsOf (topicOutcomes cfg deps bucket topicsL catsL emptyTrace).1).length =
      topicsL.length * catsL.length := by
  rcases hto : topicOutcomes cfg deps bucket topicsL catsL emptyTrace with ⟨os, trO⟩
  have hrt := runTopics_outcomes cfg deps bucket topicsL catsL [] [] emptyTrace os trO hto
  simp only [List.nil_append] at hrt
  have hpairs := topicOutcomes_pairs cfg deps bucket topicsL catsL emptyTrace os trO hto
  have hlen : os.length = topicsL.length * catsL.length := by
    have h1 : (os.map outcomePair).length = os.length := List.length_map os outcomePair
    rw [hpairs] at h1
    rw [← h1, bind_map_length]
  have hv := handler_validated cfg deps bucket event bodyKvs tj cj topicsL catsL
    hm hb ht hc htt htc hic hinv hbk hit
  rw [hrt] at hv
  refine ⟨by simpa using hv, by simpa using hpairs, ?_⟩
  simp only [hto]
  rw [leftsOf_rightsOf_length os, hlen]

/-- Witness for C10 at a concrete validated request with one succeeding
and one failing pair. -/
theorem C10_one_record_per_pair_witness :
    handler cfg0 depsMixed "bkt" (evPost ["A"] ["facts", "history"]) =
      (.ok (create_response 200
        (batchPayload
          (leftsOf (topicOutcomes cfg0 depsMixed "bkt" [.str "A"]
            [.str "facts", .str "history"] emptyTrace).1)
          (rightsOf (topicOutcomes cfg0 depsMixed "bkt" [.str "A"]
            [.str "facts", .str "history"] emptyTrace).1)) []),
        (topicOutcomes cfg0 depsMixed "bkt" [.str "A"]
          [.str "facts", .str "history"] emptyTrace).2) ∧
    (topicOutcomes cfg0 depsMixed "bkt" [.str "A"]
        [.str "facts", .str "history"] emptyTrace).1.map outcomePair =
      ([Json.str "A"]).flatMap
        (fun t => ([Json.str "facts", Json.str "history"]).map (fun c => (t, c))) ∧
    (leftsOf (topicOutcomes cfg0 depsMixed "bkt" [.str "A"]
        [.str "facts", .str "history"] emptyTrace).1).length +
      (rightsOf (topicOutcomes cfg0 depsMixed "bkt" [.str "A"]
        [.str "facts", .str "history"] emptyTrace).1).length = 1 * 2 :=
  C10_one_record_per_pair cfg0 depsMixed "bkt" (evPost ["A"] ["facts", "history"])
    [("topics", .arr [.str "A"]), ("categories", .arr [.str "facts", .str "history"])]
    (.arr [.str "A"]) (.arr [.str "facts", .str "history"])
    [.str "A"] [.str "facts", .str "history"]
    rfl rfl rfl rfl rfl rfl rfl rfl rfl rfl

theorem processPair_fst_all_ok (cfg : Config) (deps : Deps) (bucket : String) (tr : Trace)
    (t c : String) (cc : CategoryDef)
    (hcf : cfgFind cfg c = some cc)
    (hgen : ∀ n p, ∃ s, deps.bedrock n p = .ok s)
    (hput : ∀ n r, deps.s3put n r = .ok ()) :
    (processPair cfg deps bucket tr (.str t) (.str c)).1 =
      .inl ⟨.str t, .str c, "output/" ++ generate_filename t c, deps.now tr.ticks⟩ := by
  obtain ⟨content, hb1⟩ := hgen tr.prompts.length
    (cc.promptPre ++ t ++ cc.promptPost ++ instructionBlock)
  obtain ⟨md, hb2⟩ := hgen (tr.prompts.length + 1)
    (metaPromptOf t (String.mk (cc.name.data.map Char.toLower)))
  simp [processPair, generate_content, generate_with_bedrock, hcf, hb1, hb2,
    save_to_s3, hput, pyStr]

theorem leftsOf_append (a b : List (PageRecord ⊕ FailRecord)) :
    leftsOf (a ++ b) = leftsOf a ++ leftsOf b := by
  simp [leftsOf, List.filterMap_append]

theorem rightsOf_append (a b : List (PageRecord ⊕ FailRecord)) :
    rightsOf (a ++ b) = rightsOf a ++ rightsOf b := by
  simp [rightsOf, List.filterMap_append]

theorem catOutcomes_all_ok (cfg : Config) (deps : Deps) (bucket : String) (t : String)
    (hgen : ∀ n p, ∃ s, deps.bedrock n p = .ok s)
    (hput : ∀ n r, deps.s3put n r = .ok ()) :
    ∀ (cs : List String) (tr : Trace) (os : List (PageRecord ⊕ FailRecord)) (trO : Trace),
      (∀ c ∈ cs, ∃ cc, cfgFind cfg c = some cc) →
      catOutcomes cfg deps bucket (.str t) (cs.map .str) tr = (os, trO) →
      (leftsOf os).map recProj =
        cs.map (fun c => (Json.str t, Json.str c, "output/" ++ generate_filename t c)) ∧
      rightsOf os = [] := by
  intro cs
  induction cs with
  | nil =>
    intro tr os trO hval h
    simp only [List.map_nil, catOutcomes, Prod.mk.injEq] at h
    obtain ⟨h1, h2⟩ := h
    subst h1
    simp [leftsOf, rightsOf]
  | cons c rest ih =>
    intro tr os trO hval h
    obtain ⟨cc, hcf⟩ := hval c (by simp)
    rcases hp : processPair cfg deps bucket tr (.str t) (.str c) with ⟨o, tr1⟩
    rcases hco : catOutcomes cfg deps bucket (.str t) (rest.map .str) tr1 with ⟨os1, tr2⟩
    have hcons : catOutcomes cfg deps bucket (.str t) ((c :: rest).map .str) tr =
        (o :: os1, tr2) := by
      simp [catOutcomes, hp, hco]
    rw [hcons] at h
    simp only [Prod.mk.injEq] at h
    obtain ⟨h1, h2⟩ := h
    subst h1
    have hfst := processPair_fst_all_ok cfg deps bucket tr t c cc hcf hgen hput
    rw [hp] at hfst
    simp only at hfst
    subst hfst
    obtain ⟨ih1, ih2⟩ := ih tr1 os1 tr2 (fun x hx => hval x (by simp [hx])) hco
    constructor
    · simp only [leftsOf, List.filterMap_cons, List.map_cons]
      simpa [leftsOf, recProj] using ih1
    · simpa [rightsOf] using ih2

theorem topicOutcomes_all_ok (cfg : Config) (deps : Deps) (bucket : String)
    (hgen : ∀ n p, ∃ s, deps.bedrock n p = .ok s)
    (hput : ∀ n r, deps.s3put n r = .ok ()) :
    ∀ (ts cs : List String) (tr : Trace) (os : List (PageRecord ⊕ FailRecord)) (trO : Trace),
      (∀ c ∈ cs, ∃ cc, cfgFind cfg c = some cc) →
      topicOutcomes cfg deps bucket (ts.map .str) (cs.map .str) tr = (os, trO) →
      (leftsOf os).map recProj = ts.flatMap
        (fun t => cs.map (fun c => (Json.str t, Json.str c, "output/" ++ generate_filename t c))) ∧
      rightsOf os = [] := by
  intro ts
  induction ts with
  | nil =>
    intro cs tr os trO hval h
    simp only [List.map_nil, topicOutcomes, Prod.mk.injEq] at h
    obtain ⟨h1, h2⟩ := h
    subst h1
    simp [leftsOf, rightsOf]
  | cons t rest ih =>
    intro cs tr os trO hval h
    rcases hcat : catOutcomes cfg deps bucket (.str t) (cs.map .str) tr with ⟨os1, tr1⟩
    rcases hto : topicOutcomes cfg deps bucket (rest.map .str) (cs.map .str) tr1
      with ⟨os2, tr2⟩
    have hcons : topicOutcomes cfg deps bucket ((t :: rest).map .str) (cs.map .str) tr =
        (os1 ++ os2, tr2) := by
      simp [topicOutcomes, hcat, hto]
    rw [hcons] at h
    simp only [Prod.mk.injEq] at h
    obtain ⟨h1, h2⟩ := h
    subst h1
    obtain ⟨hc1, hc2⟩ := catOutcomes_all_ok cfg deps bucket t hgen hput cs tr os1 tr1 hval hcat
    obtain ⟨ih1, ih2⟩ := ih cs tr1 os2 tr2 hval hto
    constructor
    · rw [leftsOf_append, List.map_append, hc1, ih1, List.flatMap_cons]
    · rw [rightsOf_append, hc2, ih2]
      simp

/-- C6: for non-empty string topics and categories all of which are
configured keys, with the bucket configured and every generation and
persistence call succeeding, the handler returns the 200 envelope whose
payload has `success = true` and an empty `failed` list, and whose
`generated` records are exactly the topics×categories product in
iteration order (topics outer), each carrying its pair's topic, category
and derived output key; their count is len(topics)·len(categories). -/
theorem C6_all_success (cfg : Config) (deps : Deps) (bucket : String)
    (event : List (String × Json)) (bodyKvs : List (String × Json))
    (ts cs : List String)
    (hm : get_http_method event = .ok (.str "POST"))
    (hb : parse_request_body deps.jsonLoads event = .ok (.obj bodyKvs))
    (ht : jgetD bodyKvs "topics" (.arr []) = .arr (ts.map .str))
    (hc : jgetD bodyKvs "categories" (.arr []) = .arr (cs.map .str))
    (hts : ts ≠ [])
    (hcs : cs ≠ [])
    (hval : ∀ c ∈ cs, ∃ cc, cfgFind cfg c = some cc)
    (hbk : (bucket == "") = false)
    (hgen : ∀ n p, ∃ s, deps.bedrock n p = .ok s)
    (hput : ∀ n r, deps.s3put n r = .ok ()) :
    handler cfg deps bucket event =
      (.ok (create_response 200
        (batchPayload
          (leftsOf (topicOutcomes cfg deps bucket (ts.map .str) (cs.map .str) emptyTrace).1)
          []) []),
        (topicOutcomes cfg deps bucket (ts.map .str) (cs.map .str) emptyTrace).2) ∧
    rightsOf (topicOutcomes cfg deps bucket (ts.map .str) (cs.map .str) emptyTrace).1 = [] ∧
    (leftsOf (topicOutcomes cfg deps bucket (ts.map .str) (cs.map .str) emptyTrace).1).map
        recProj =
      ts.flatMap (fun t => cs.map
        (fun c => (Json.str t, Json.str c, "output/" ++ generate_filename t c))) ∧
    (leftsOf (topicOutcomes cfg deps bucket (ts.map .str) (cs.map .str) emptyTrace).1).length
      = ts.length * cs.length ∧
    jfield (batchPayload
        (leftsOf (topicOutcomes cfg deps bucket (ts.map .str) (cs.map .str) emptyTrace).1) [])
      "success" = some (.bool true) := by
  rcases hto : topicOutcomes cfg deps bucket (ts.map .str) (cs.map .str) emptyTrace
    with ⟨os, trO⟩
  obtain ⟨hl, hr⟩ := topicOutcomes_all_ok cfg deps bucket hgen hput ts cs emptyTrace os trO
    hval hto
  have htt : truthy (Json.arr (ts.map .str)) = true := by
    cases ts with
    | nil => exact absurd rfl hts
    | cons a r => simp [truthy]
  have htc : truthy (Json.arr (cs.map .str)) = true := by
    cases cs with
    | nil => exact absurd rfl hcs
    | cons a r => simp [truthy]
  have hinv : invalidCatsFilter cfg (cs.map .str) = .ok [] := by
    rw [invalidCatsFilter_strs]
    have : (cs.filter (fun c => (cfgFind cfg c).isNone)) = [] := by
      rw [List.filter_eq_nil_iff]
      intro c hcmem
      obtain ⟨cc, hcc⟩ := hval c hcmem
      simp [hcc]
    rw [this]
    rfl
  have hv := handler_validated cfg deps bucket event bodyKvs
    (.arr (ts.map .str)) (.arr (cs.map .str)) (ts.map .str) (cs.map .str)
    hm hb ht hc htt htc rfl hinv hbk rfl
  have hrt := runTopics_outcomes cfg deps bucket (ts.map .str) (cs.map .str) [] [] emptyTrace
    os trO hto
  simp only [List.nil_append] at hrt
  rw [hrt] at hv
  have hlen : (leftsOf os).length = ts.length * cs.length := by
    have h1 := List.length_map (leftsOf os) recProj
    rw [hl, bind_map_length] at h1
    simpa using h1.symm
  refine ⟨?_, by simpa [hto] using hr, by simpa [hto] using hl, by simpa [hto] using hlen, ?_⟩
  · simp only [hto]
    simpa [hr] using hv
  · simp only [hto]
    rfl

/-- Witness for C6: two topics and one category, all stubs succeeding. -/
theorem C6_all_success_witness :
    handler cfg0 depsOk "bkt" (evPost ["A", "B"] ["facts"]) =
      (.ok (create_response 200
        (batchPayload
          (leftsOf (topicOutcomes cfg0 depsOk "bkt" [.str "A", .str "B"] [.str "facts"]
            emptyTrace).1) []) []),
        (topicOutcomes cfg0 depsOk "bkt" [.str "A", .str "B"] [.str "facts"] emptyTrace).2) ∧
    rightsOf (topicOutcomes cfg0 depsOk "bkt" [.str "A", .str "B"] [.str "facts"]
      emptyTrace).1 = [] ∧
    (leftsOf (topicOutcomes cfg0 depsOk "bkt" [.str "A", .str "B"] [.str "facts"]
        emptyTrace).1).map recProj =
      (["A", "B"]).flatMap (fun t => (["facts"]).map
        (fun c => (Json.str t, Json.str c, "output/" ++ generate_filename t c))) ∧
    (leftsOf (topicOutcomes cfg0 depsOk "bkt" [.str "A", .str "B"] [.str "facts"]
        emptyTrace).1).length = 2 * 1 ∧
    jfield (batchPayload
        (leftsOf (topicOutcomes cfg0 depsOk "bkt" [.str "A", .str "B"] [.str "facts"]
          emptyTrace).1) []) "success" = some (.bool true) :=
  C6_all_success cfg0 depsOk "bkt" (evPost ["A", "B"] ["facts"])
    [("topics", .arr [.str "A", .str "B"]), ("categories", .arr [.str "facts"])]
    ["A", "B"] ["facts"] rfl rfl rfl rfl (by decide) (by decide)
    (by
      intro c hcmem
      simp only [List.mem_singleton] at hcmem
      subst hcmem
      exact ⟨_, rfl⟩)
    rfl (fun n p => ⟨"generated text", rfl⟩) (fun n r => rfl)

/-- C7: after validation the handler's 200 payload is built by
`batchPayload`, whose derived fields satisfy the claimed relations for
every pair of record lists: `success` is true iff `failed` is empty,
`total_generated` is the length of `generated`, and `message` names the
failure count exactly when there are failures, otherwise the pure
success message with the generated count. -/
theorem C7_payload_derived_fields (cfg : Config) (deps : Deps) (bucket : String)
    (event : List (String × Json)) (bodyKvs : List (String × Json))
    (tj cj : Json) (topicsL catsL : List Json)
    (hm : get_http_method event = .ok (.str "POST"))
    (hb : parse_request_body deps.jsonLoads event = .ok (.obj bodyKvs))
    (ht : jgetD bodyKvs "topics" (.arr []) = tj)
    (hc : jgetD bodyKvs "categories" (.arr []) = cj)
    (htt : truthy tj = true)
    (htc : truthy cj = true)
    (hic : pyIter cj = .ok catsL)
    (hinv : invalidCatsFilter cfg catsL = .ok [])
    (hbk : (bucket == "") = false)
    (hit : pyIter tj = .ok topicsL) :
    handler cfg deps bucket event =
      (.ok (create_response 200
        (batchPayload (runTopics cfg deps bucket topicsL catsL [] [] emptyTrace).1
          (runTopics cfg deps bucket topicsL catsL [] [] emptyTrace).2.1) []),
        (runTopics cfg deps bucket topicsL catsL [] [] emptyTrace).2.2) ∧
    (∀ (g : List PageRecord) (f : List FailRecord),
      (jfield (batchPayload g f) "success" = some (.bool true) ↔ f = []) ∧
      jfield (batchPayload g f) "total_generated" = some (.num g.length) ∧
      (f = [] → jfield (batchPayload g f) "message" =
        some (.str ("Successfully generated " ++ toString g.length ++ " pages."))) ∧
      (f ≠ [] → jfield (batchPayload g f) "message" =
        some (.str ("Generated " ++ toString g.length ++ " pages. " ++
          toString f.length ++ " failed.")))) := by
  refine ⟨handler_validated cfg deps bucket event bodyKvs tj cj topicsL catsL
    hm hb ht hc htt htc hic hinv hbk hit, ?_⟩
  intro g f
  refine ⟨?_, rfl, ?_, ?_⟩
  · show some (Json.bool (f.length == 0)) = some (Json.bool true) ↔ f = []
    constructor
    · intro h
      simp only [Option.some.injEq, Json.bool.injEq, beq_iff_eq] at h
      exact List.length_eq_zero.mp h
    · intro h
      subst h
      rfl
  · intro h
    subst h
    rfl
  · intro h
    cases f with
    | nil => exact absurd rfl h
    | cons a r => rfl

/-- Witness for C7 at a concrete validated request whose pairs all
fail. -/
theorem C7_payload_derived_fields_witness :
    handler cfg0 depsFail "bkt" (evPost ["A"] ["facts"]) =
      (.ok (create_response 200
        (batchPayload (runTopics cfg0 depsFail "bkt" [.str "A"] [.str "facts"] [] []
          emptyTrace).1
          (runTopics cfg0 depsFail "bkt" [.str "A"] [.str "facts"] [] []
            emptyTrace).2.1) []),
        (runTopics cfg0 depsFail "bkt" [.str "A"] [.str "facts"] [] [] emptyTrace).2.2) ∧
    (∀ (g : List PageRecord) (f : List FailRecord),
      (jfield (batchPayload g f) "success" = some (.bool true) ↔ f = []) ∧
      jfield (batchPayload g f) "total_generated" = some (.num g.length) ∧
      (f = [] → jfield (batchPayload g f) "message" =
        some (.str ("Successfully generated " ++ toString g.length ++ " pages."))) ∧
      (f ≠ [] → jfield (batchPayload g f) "message" =
        some (.str ("Generated " ++ toString g.length ++ " pages. " ++
          toString f.length ++ " failed.")))) :=
  C7_payload_derived_fields cfg0 depsFail "bkt" (evPost ["A"] ["facts"])
    [("topics", .arr [.str "A"]), ("categories", .arr [.str "facts"])]
    (.arr [.str "A"]) (.arr [.str "facts"]) [.str "A"] [.str "facts"]
    rfl rfl rfl rfl rfl rfl rfl rfl rfl rfl

/-- C8 (amended): when the two generation calls succeed, the stored
meta description is exactly the whitespace-trimmed API text truncated to
at most 160 characters, so its length never exceeds 160; it is exactly
160 characters whenever the trimmed text has at least 160 characters
(in particular for a 500-character response with no surrounding
whitespace), but an over-long response consisting mostly of whitespace
can trim to fewer than 160 characters. -/
theorem C8_meta_description_truncated (cfg : Config) (deps : Deps) (tr : Trace)
    (t c : String) (cc : CategoryDef) (content md : String)
    (hcf : cfgFind cfg c = some cc)
    (hb1 : deps.bedrock tr.prompts.length
      (cc.promptPre ++ t ++ cc.promptPost ++ instructionBlock) = .ok content)
    (hb2 : deps.bedrock (tr.prompts.length + 1)
      (metaPromptOf t (String.mk (cc.name.data.map Char.toLower))) = .ok md) :
    (generate_content cfg deps tr (.str t) (.str c)).1 =
      .ok ⟨content, pySlice (pyStrip md) 160, cc.name⟩ ∧
    (pySlice (pyStrip md) 160).length ≤ 160 ∧
    (160 ≤ (pyStrip md).length → (pySlice (pyStrip md) 160).length = 160) := by
  refine ⟨?_, ?_, ?_⟩
  · simp [generate_content, generate_with_bedrock, hcf, hb1, hb2, pyStr]
  · show ((pyStrip md).data.take 160).length ≤ 160
    simp
  · intro h
    have h2 : 160 ≤ (pyStrip md).data.length := h
    show ((pyStrip md).data.take 160).length = 160
    rw [List.length_take]
    omega

/-- C8 counterexample: a 500-character API response need not yield a
meta description of exactly 160 characters — the source trims before
truncating, so a response of 500 spaces yields the empty meta
description. -/
theorem C8_counterexample :
    deps500sp.bedrock 1 (metaPromptOf "Cats" "fun facts") =
      .ok (String.mk (List.replicate 500 ' ')) ∧
    (String.mk (List.replicate 500 ' ')).length = 500 ∧
    (generate_content cfg0 deps500sp emptyTrace (.str "Cats") (.str "facts")).1 =
      .ok ⟨"body text", "", "Fun Facts"⟩ ∧
    ("" : String).length ≠ 160 := by
  refine ⟨rfl, ?_, rfl, by decide⟩
  show (List.replicate 500 ' ').length = 500
  simp

/-- Witness for C8: a 500-character non-whitespace response is truncated
to exactly 160 characters. -/
theorem C8_meta_description_truncated_witness :
    (generate_content cfg0 deps500x emptyTrace (.str "Cats") (.str "facts")).1 =
      .ok ⟨"body text",
        pySlice (pyStrip (String.mk (List.replicate 500 'x'))) 160, "Fun Facts"⟩ ∧
    (pySlice (pyStrip (String.mk (List.replicate 500 'x'))) 160).length = 160 :=
  have h := C8_meta_description_truncated cfg0 deps500x emptyTrace "Cats" "facts"
    ⟨"Fun Facts", "Write an article about ", "."⟩ "body text"
    (String.mk (List.replicate 500 'x')) rfl rfl rfl
  ⟨h.1, h.2.2 (by decide)⟩

theorem jlookup_any_isSome (kvs : List (String × Json)) (k : String) :
    kvs.any (fun kv => kv.1 == k) = (jlookup kvs k).isSome := by
  induction kvs with
  | nil => rfl
  | cons kv rest ih =>
    by_cases h : (kv.1 == k) = true
    · simp [jlookup, List.find?, h]
    · simp only [Bool.not_eq_true] at h
      simp [jlookup, List.find?, h] at ih ⊢
      exact ih

/-- C9 (amended): `get_http_method` prefers the v2 path whenever the
event's routing context is an object containing an `http` object — in
that case it returns that object's `method` field, defaulting to `GET`
even when a top-level `httpMethod` is present — and falls back to the
top-level v1 `httpMethod` (default `GET`) only when the routing context
is absent or lacks the `http` key; both claimed v1 and v2 POST examples
hold. -/
theorem C9_get_http_method (event : List (String × Json)) :
    (∀ (rcKvs hKvs : List (String × Json)),
      jlookup event "requestContext" = some (.obj rcKvs) →
      jlookup rcKvs "http" = some (.obj hKvs) →
      get_http_method event = .ok (jgetD hKvs "method" (.str "GET"))) ∧
    (jlookup event "requestContext" = none →
      get_http_method event = .ok (jgetD event "httpMethod" (.str "GET"))) ∧
    (∀ (rcKvs : List (String × Json)),
      jlookup event "requestContext" = some (.obj rcKvs) →
      jlookup rcKvs "http" = none →
      get_http_method event = .ok (jgetD event "httpMethod" (.str "GET"))) ∧
    get_http_method [("httpMethod", .str "POST")] = .ok (.str "POST") ∧
    get_http_method [("requestContext", .obj [("http", .obj [("method", .str "POST")])])] =
      .ok (.str "POST") := by
  refine ⟨?_, ?_, ?_, rfl, rfl⟩
  · intro rcKvs hKvs h1 h2
    have hany : rcKvs.any (fun kv => kv.1 == "http") = true := by
      rw [jlookup_any_isSome, h2]
      rfl
    simp [get_http_method, h1, h2, pyContains, hany]
  · intro h1
    simp [get_http_method, h1]
  · intro rcKvs h1 h2
    have hany : rcKvs.any (fun kv => kv.1 == "http") = false := by
      rw [jlookup_any_isSome, h2]
      rfl
    simp [get_http_method, h1, pyContains, hany]

/-- C9 counterexample: this event carries no inner method field, so by
the claim the function should fall back to the top-level `httpMethod`
(`"POST"`); the code instead returns the v2 default `"GET"`. -/
theorem C9_counterexample :
    get_http_method evC9 = .ok (.str "GET") ∧
    jgetD evC9 "httpMethod" (.str "GET") = .str "POST" ∧
    get_http_method evC9 ≠ .ok (.str "POST") := by
  refine ⟨rfl, rfl, ?_⟩
  intro h
  rw [show get_http_method evC9 = .ok (.str "GET") from rfl] at h
  simp only [Except.ok.injEq, Json.str.injEq] at h
  exact absurd h (by decide)

/-- Witness for C9: the three conditional branches of the amended
statement applied to concrete events. -/
theorem C9_get_http_method_witness :
    get_http_method [("requestContext", .obj [("http", .obj [("method", .str "PUT")])]),
        ("httpMethod", .str "POST")] = .ok (.str "PUT") ∧
    get_http_method [("httpMethod", .str "DELETE")] = .ok (.str "DELETE") ∧
    get_http_method [("requestContext", .obj [("stage", .str "prod")]),
        ("httpMethod", .str "PATCH")] = .ok (.str "PATCH") :=
  ⟨(C9_get_http_method [("requestContext", .obj [("http", .obj [("method", .str "PUT")])]),
        ("httpMethod", .str "POST")]).1
      [("http", .obj [("method", .str "PUT")])] [("method", .str "PUT")] rfl rfl,
   (C9_get_http_method [("httpMethod", .str "DELETE")]).2.1 rfl,
   (C9_get_http_method [("requestContext", .obj [("stage", .str "prod")]),
        ("httpMethod", .str "PATCH")]).2.2.1 [("stage", .str "prod")] rfl rfl⟩

/-- C3 counterexample: `parse_request_body` can raise.  On an event whose
body is the single character `"A"` and is marked base64-encoded,
`base64.b64decode` raises (one data character is one more than a
multiple of four), and nothing catches it. -/
theorem C3_counterexample :
    parse_request_body (fun _ => .error ())
        [("body", .str "A"), ("isBase64Encoded", .bool true)] =
      .error "Invalid base64-encoded string: number of data characters cannot be 1 more than a multiple of 4" :=
  rfl

/-- C3 (amended): `parse_request_body` never raises provided that, when
the event marks a truthy body as base64-encoded, that body is a string
that decodes as base64 to valid UTF-8 (otherwise the decode error
propagates uncaught); a base64-marked body is decoded to text first;
text that `json.loads` accepts is parsed and returned; on a parse
failure, or when the body field is absent, the empty object is
returned. -/
theorem C3_parse_request_body (jl : String → Except Unit Json)
    (event : List (String × Json)) :
    (((truthy (jgetD event "isBase64Encoded" (.bool false)) &&
        truthy (jgetD event "body" (.str "\x7b\x7d"))) = true →
      ∃ s bytes cs, jgetD event "body" (.str "\x7b\x7d") = .str s ∧
        b64decode s = .ok bytes ∧ utf8Decode bytes = .ok cs) →
      ∃ r, parse_request_body jl event = .ok r) ∧
    (∀ s j, jgetD event "body" (.str "\x7b\x7d") = .str s →
      (truthy (jgetD event "isBase64Encoded" (.bool false)) && truthy (.str s)) = false →
      jl s = .ok j → parse_request_body jl event = .ok j) ∧
    (∀ s, jgetD event "body" (.str "\x7b\x7d") = .str s →
      (truthy (jgetD event "isBase64Encoded" (.bool false)) && truthy (.str s)) = false →
      jl s = .error () → parse_request_body jl event = .ok (.obj [])) ∧
    (∀ s bytes cs j, jgetD event "body" (.str "\x7b\x7d") = .str s →
      (truthy (jgetD event "isBase64Encoded" (.bool false)) && truthy (.str s)) = true →
      b64decode s = .ok bytes → utf8Decode bytes = .ok cs →
      jl (String.mk cs) = .ok j → parse_request_body jl event = .ok j) ∧
    (∀ s bytes cs, jgetD event "body" (.str "\x7b\x7d") = .str s →
      (truthy (jgetD event "isBase64Encoded" (.bool false)) && truthy (.str s)) = true →
      b64decode s = .ok bytes → utf8Decode bytes = .ok cs →
      jl (String.mk cs) = .error () → parse_request_body jl event = .ok (.obj [])) ∧
    (jlookup event "body" = none →
      truthy (jgetD event "isBase64Encoded" (.bool false)) = false →
      jl "\x7b\x7d" = .ok (.obj []) → parse_request_body jl event = .ok (.obj [])) := by
  refine ⟨?_, ?_, ?_, ?_, ?_, ?_⟩
  · intro hsafe
    by_cases hcond : (truthy (jgetD event "isBase64Encoded" (.bool false)) &&
        truthy (jgetD event "body" (.str "\x7b\x7d"))) = true
    · obtain ⟨s, bytes, cs, hbody, hb64, hutf⟩ := hsafe hcond
      rw [hbody] at hcond
      cases hjl : jl (String.mk cs) with
      | ok j => exact ⟨j, by simp [parse_request_body, hbody, hcond, hb64, hutf, hjl]⟩
      | error e =>
        exact ⟨.obj [], by simp [parse_request_body, hbody, hcond, hb64, hutf, hjl]⟩
    · simp only [Bool.not_eq_true] at hcond
      cases hb : jgetD event "body" (.str "\x7b\x7d") with
      | str s =>
        rw [hb] at hcond
        cases hjl : jl s with
        | ok j => exact ⟨j, by simp [parse_request_body, hb, hcond, hjl]⟩
        | error e => exact ⟨.obj [], by simp [parse_request_body, hb, hcond, hjl]⟩
      | null => exact ⟨.obj [], by rw [hb] at hcond; simp [parse_request_body, hb, hcond, truthy]⟩
      | bool x =>
        refine ⟨if truthy (.bool x) then .bool x else .obj [], ?_⟩
        rw [hb] at hcond
        simp [parse_request_body, hb, hcond]
      | num x =>
        refine ⟨if truthy (.num x) then .num x else .obj [], ?_⟩
        rw [hb] at hcond
        simp [parse_request_body, hb, hcond]
      | arr x =>
        refine ⟨if truthy (.arr x) then .arr x else .obj [], ?_⟩
        rw [hb] at hcond
        simp [parse_request_body, hb, hcond]
      | obj x =>
        refine ⟨if truthy (.obj x) then .obj x else .obj [], ?_⟩
        rw [hb] at hcond
        simp [parse_request_body, hb, hcond]
  · intro s j hb hcond hjl
    simp [parse_request_body, hb, hcond, hjl]
  · intro s hb hcond hjl
    simp [parse_request_body, hb, hcond, hjl]
  · intro s bytes cs j hb hcond hb64 hutf hjl
    simp [parse_request_body, hb, hcond, hb64, hutf, hjl]
  · intro s bytes cs hb hcond hb64 hutf hjl
    simp [parse_request_body, hb, hcond, hb64, hutf, hjl]
  · intro hnone hflag hjl
    have hb : jgetD event "body" (.str "\x7b\x7d") = .str "\x7b\x7d" := by
      unfold jgetD
      unfold jlookup at hnone
      cases hfind : event.find? (fun kv => kv.1 == "body") with
      | none => rfl
      | some kv => rw [hfind] at hnone; simp at hnone
    simp [parse_request_body, hb, hflag, hjl]

/-- Witness for C3: a base64 body decodes and parses; malformed JSON
text degrades to the empty object; an absent body yields the empty
object; and the guarded no-raise conclusion holds on the base64 event. -/
theorem C3_parse_request_body_witness :
    parse_request_body jlObj1 [("body", .str "eyJhIjogMX0="), ("isBase64Encoded", .bool true)] =
      .ok (.obj [("a", .num 1)]) ∧
    parse_request_body (fun _ => .error ()) [("body", .str "not json")] = .ok (.obj []) ∧
    parse_request_body jlEmptyObj [] = .ok (.obj []) ∧
    (∃ r, parse_request_body jlObj1
      [("body", .str "eyJhIjogMX0="), ("isBase64Encoded", .bool true)] = .ok r) :=
  ⟨(C3_parse_request_body jlObj1
      [("body", .str "eyJhIjogMX0="), ("isBase64Encoded", .bool true)]).2.2.2.1
      "eyJhIjogMX0=" [123, 34, 97, 34, 58, 32, 49, 125] ("\x7b\"a\": 1\x7d".data)
      (.obj [("a", .num 1)]) rfl rfl rfl rfl rfl,
   (C3_parse_request_body (fun _ => .error ()) [("body", .str "not json")]).2.2.1
      "not json" rfl rfl rfl,
   (C3_parse_request_body jlEmptyObj []).2.2.2.2.2 rfl rfl rfl,
   (C3_parse_request_body jlObj1
      [("body", .str "eyJhIjogMX0="), ("isBase64Encoded", .bool true)]).1
      (fun _ => ⟨"eyJhIjogMX0=", [123, 34, 97, 34, 58, 32, 49, 125],
        ("\x7b\"a\": 1\x7d".data), rfl, rfl, rfl⟩)⟩
